import Mathlib

/-!
# target-grid: the real-time synchronisation layer

A shallow embedding of `frontend/src/services/socketService.js`,
`frontend/src/hooks/useSocket.js` and the effect code of the pages built on
them (`Dashboard.jsx`, `Leads.jsx`, `Leaderboard.jsx`, `LeadDetail.jsx`).

The socket object returned by socket.io-client is an external collaborator.
It is modelled by the record `Socket` with the emitter behaviour the library
documents: `on` appends a handler, `off(event, fn)` removes the first handler
registered under `event` that is identical to `fn`, `emit` sends one signal,
and every call of `io(url, opts)` for an origin already in use opens a new
transport that is not yet connected when the call returns.
-/

namespace TargetGrid

/-! ## Data model -/

/-- Event names passed to `socket.on` / `socket.off` in socketService.js:
`'connect'`, `'disconnect'`, `'connect_error'`, `'score-updated'`,
`'leaderboard-updated'`. -/
inductive Event
  | connect
  | disconnect
  | connect_error
  | scoreUpdated
  | leaderboardUpdated
  deriving DecidableEq, Repr

/-- Function objects handed to the socket. Equality is JavaScript identity
(`===`): every evaluation of an arrow expression yields a new function object,
which the `tag` records. The other arguments are the variables a closure
captures.
* `logConnected`, `logDisconnected`, `logConnectionError`: the three handlers
  created by `connect()` (socketService.js 19-29);
* `dashboardScore`: `() => { refetchLeads(); refetchLeaderboard(); }` (Dashboard.jsx 20-23);
* `dashboardLeaderboard`: `() => { refetchLeaderboard(); }` (Dashboard.jsx 25-27);
* `leadsScore`: `() => { refetch(); }` (Leads.jsx 23-25), `refetch` closing over
  `currentPage` and `debouncedSearch`;
* `leaderboardRefetch`: `() => { refetch(); }` (Leaderboard.jsx 13-15);
* `handleScoreUpdate`: the handler of LeadDetail.jsx 37-42, closing over `id`;
* `other`: any other function. -/
inductive Callback
  | logConnected
  | logDisconnected
  | logConnectionError
  | dashboardScore (tag : Nat)
  | dashboardLeaderboard (tag : Nat)
  | leadsScore (page : Nat) (search : String) (tag : Nat)
  | leaderboardRefetch (tag : Nat)
  | handleScoreUpdate (id : Option String) (tag : Nat)
  | other (tag : Nat)
  deriving DecidableEq, Repr

/-- Outbound signals: `socket.emit('join-lead', leadId)` and
`socket.emit('leave-lead', leadId)`. -/
inductive Signal
  | joinLead (leadId : String)
  | leaveLead (leadId : String)
  deriving DecidableEq, Repr

/-- Connection states of one transport. -/
inductive Status
  | connecting
  | connected
  | errored
  | disconnected
  deriving DecidableEq, Repr

/-- One socket.io client socket: its connection state, the handlers attached
to it in registration order, and the signals emitted on it in order. -/
structure Socket where
  status : Status
  handlers : List (Event × Callback)
  emitted : List Signal
  deriving DecidableEq, Repr

/-- The `socket.connected` flag. -/
def Socket.connected (k : Socket) : Bool :=
  k.status == Status.connected

/-- The socket `io(serverUrl, opts)` returns: a new transport whose handshake
is still pending, with no handler and nothing emitted. -/
def io : Socket :=
  { status := Status.connecting, handlers := [], emitted := [] }

/-- Model of `socket.on(event, fn)`: appends the handler. -/
def Socket.on (k : Socket) (e : Event) (cb : Callback) : Socket :=
  { k with handlers := k.handlers ++ [(e, cb)] }

/-- Model of `socket.off(event, fn)`: removes the first handler registered
under `event` that is identical to `fn`, if there is one. -/
def Socket.off (k : Socket) (e : Event) (cb : Callback) : Socket :=
  { k with handlers := k.handlers.erase (e, cb) }

/-- Model of `socket.emit(name, leadId)`. -/
def Socket.emit (k : Socket) (sig : Signal) : Socket :=
  { k with emitted := k.emitted ++ [sig] }

/-- Model of `socket.disconnect()`: the transport is closed by the client. -/
def Socket.disconnect (k : Socket) : Socket :=
  { k with status := Status.disconnected }

/-- The handshake of a pending or errored transport completes. -/
def Socket.handshake (k : Socket) : Socket :=
  match k.status with
  | Status.connecting => { k with status := Status.connected }
  | Status.errored => { k with status := Status.connected }
  | _ => k

/-- The callbacks a socket invokes, in registration order, when event `e`
arrives on it. Only a connected socket receives events. -/
def Socket.receive (k : Socket) (e : Event) : List Callback :=
  if k.connected then (k.handlers.filter (fun h => h.1 == e)).map Prod.snd else []

/-- Model of `Map.prototype.set`: an existing key keeps its position and gets the new
value, a new key is appended. -/
def mapSet (m : List (Event × Callback)) (e : Event) (cb : Callback) :
    List (Event × Callback) :=
  match m with
  | [] => [(e, cb)]
  | (e', cb') :: rest =>
    if e' = e then (e, cb) :: rest else (e', cb') :: mapSet rest e cb

/-- Model of `Map.prototype.get`. -/
def mapGet (m : List (Event × Callback)) (e : Event) : Option Callback :=
  (m.find? (fun h => h.1 == e)).map Prod.snd

/-- The `SocketService` singleton: `socket` (`none` is `null`) and the
`listeners` map in insertion order. `orphans` is the environment's record of
the sockets the service created earlier and no longer references; the source
has no such field, the sockets simply stay alive in the client. -/
structure SocketService where
  socket : Option Socket
  listeners : List (Event × Callback)
  orphans : List Socket
  deriving DecidableEq, Repr

namespace SocketService

/-- The constructor (socketService.js 4-7). -/
def new : SocketService :=
  { socket := none, listeners := [], orphans := [] }

/-- The guard expression `this.socket?.connected`. -/
def socketConnected (s : SocketService) : Bool :=
  match s.socket with
  | some k => k.connected
  | none => false

/-- Every socket the service has created so far. -/
def sockets (s : SocketService) : List Socket :=
  s.orphans ++ s.socket.toList

/-- Method `connect()` (socketService.js 9-30). -/
def connect (s : SocketService) : SocketService :=
  if s.socketConnected then s
  else
    { s with
      socket := some (((io.on Event.connect Callback.logConnected).on
        Event.disconnect Callback.logDisconnected).on
        Event.connect_error Callback.logConnectionError)
      orphans := s.orphans ++ s.socket.toList }

/-- Method `disconnect()` (socketService.js 32-37). -/
def disconnect (s : SocketService) : SocketService :=
  match s.socket with
  | some k => { s with socket := none, orphans := s.orphans ++ [k.disconnect] }
  | none => s

/-- The statement `if (!this.socket) this.connect();`, the first line of `onScoreUpdate`,
`onLeaderboardUpdate` and `joinLead`. -/
def ensureSocket (s : SocketService) : SocketService :=
  if s.socket.isNone then s.connect else s

/-- Method `onScoreUpdate(callback)` (socketService.js 40-44). The `none` branch
cannot be reached: `connect()` from a null handle always sets the handle. -/
def onScoreUpdate (s : SocketService) (cb : Callback) : SocketService :=
  let s1 := s.ensureSocket
  match s1.socket with
  | some k =>
    { s1 with
      socket := some (k.on Event.scoreUpdated cb)
      listeners := mapSet s1.listeners Event.scoreUpdated cb }
  | none => s1

/-- Method `onLeaderboardUpdate(callback)` (socketService.js 47-51). -/
def onLeaderboardUpdate (s : SocketService) (cb : Callback) : SocketService :=
  let s1 := s.ensureSocket
  match s1.socket with
  | some k =>
    { s1 with
      socket := some (k.on Event.leaderboardUpdated cb)
      listeners := mapSet s1.listeners Event.leaderboardUpdated cb }
  | none => s1

/-- Method `joinLead(leadId)` (socketService.js 54-57). -/
def joinLead (s : SocketService) (leadId : String) : SocketService :=
  let s1 := s.ensureSocket
  match s1.socket with
  | some k => { s1 with socket := some (k.emit (Signal.joinLead leadId)) }
  | none => s1

/-- Method `leaveLead(leadId)` (socketService.js 60-64). -/
def leaveLead (s : SocketService) (leadId : String) : SocketService :=
  match s.socket with
  | some k => { s with socket := some (k.emit (Signal.leaveLead leadId)) }
  | none => s

/-- Method `removeAllListeners()` (socketService.js 67-74): `listeners.forEach`
visits the entries in insertion order. -/
def removeAllListeners (s : SocketService) : SocketService :=
  match s.socket with
  | some k =>
    { s with
      socket := some (s.listeners.foldl (fun k1 h => k1.off h.1 h.2) k)
      listeners := [] }
  | none => s

/-! ### The environment -/

/-- Every transport that the client has not closed completes its handshake. -/
def handshakeAll (s : SocketService) : SocketService :=
  { s with
    socket := s.socket.map Socket.handshake
    orphans := s.orphans.map Socket.handshake }

/-- The callbacks the sockets call, in order, when the server broadcasts
event `e`, as long as none of them throws: every connected socket of this
client receives the event once. -/
def push (s : SocketService) (e : Event) : List Callback :=
  (s.sockets.map (fun k => k.receive e)).flatten

/-- Callback `cb` is attached under event `e` to some socket the service
created. -/
def attached (s : SocketService) (e : Event) (cb : Callback) : Prop :=
  ∃ k ∈ s.sockets, (e, cb) ∈ k.handlers

end SocketService

/-! ## Push payloads and what the callbacks do -/

/-- The values a payload field can hold. -/
inductive JsValue
  | undefined
  | null
  | bool (b : Bool)
  | number (n : Int)
  | string (s : String)
  deriving DecidableEq, Repr

/-- The argument a handler receives with a push event: `nullish` when the
server sent no argument (or `null`), otherwise a value whose `leadId` property
reads as the given `JsValue` (`undefined` when the property is absent). -/
inductive Payload
  | nullish
  | object (leadId : JsValue)
  deriving DecidableEq, Repr

/-- The fetch functions of the screens, with the variables they close over:
`fetchLeads` (useLeads.js 10-22), `fetchLead` (useLeads.js 42-55),
`fetchLeaderboard` (useLeads.js 74-85), `fetchScoreHistory`
(LeadDetail.jsx 51-61), `fetchEvents` (LeadDetail.jsx 63-73). -/
inductive Call
  | fetchLeads (page limit : Nat) (search : String)
  | fetchLead (id : Option String)
  | fetchLeaderboard (limit : Nat)
  | fetchScoreHistory (id : Option String)
  | fetchEvents (id : Option String)
  deriving DecidableEq, Repr

/-- The requests of leadService.js, eventService.js and scoringService.js. -/
inductive Request
  | getLeads (page limit : Nat) (search : String)
  | getLeadById (id : String)
  | getLeaderboard (limit : Nat)
  | getScoreHistory (leadId : Option String) (page limit : Nat)
  | getEvents (leadId : Option String) (page limit : Nat)
  | getScoringRules
  deriving DecidableEq, Repr

/-- Truthiness of the route parameter `id` (`if (id)`, `if (!id)`):
`undefined` and the empty string are falsy. -/
def truthy (id : Option String) : Bool :=
  match id with
  | some v => v != ""
  | none => false

/-- The request each fetch function issues. `fetchLead` returns early when
`id` is falsy (useLeads.js 43). -/
def Call.requests (c : Call) : List Request :=
  match c with
  | Call.fetchLeads page limit search => [Request.getLeads page limit search]
  | Call.fetchLead id =>
    match id with
    | some v => if v != "" then [Request.getLeadById v] else []
    | none => []
  | Call.fetchLeaderboard limit => [Request.getLeaderboard limit]
  | Call.fetchScoreHistory id => [Request.getScoreHistory id 1 50]
  | Call.fetchEvents id => [Request.getEvents id 1 20]

/-- The comparison `data.leadId === id` of LeadDetail.jsx 38. -/
def strictEq (v : JsValue) (id : Option String) : Bool :=
  match v, id with
  | JsValue.undefined, none => true
  | JsValue.string a, some b => a == b
  | _, _ => false

/-- The handler `handleScoreUpdate` (LeadDetail.jsx 37-42). Reading `data.leadId` of a
nullish `data` throws before any call is made. -/
def LeadDetail.handleScoreUpdate (id : Option String) (data : Payload) : List Call :=
  match data with
  | Payload.nullish => []
  | Payload.object leadId =>
    if strictEq leadId id then [Call.fetchLead id, Call.fetchScoreHistory id] else []

/-- The fetch functions a callback invokes, in order, when it is called with
`data`. The Dashboard uses `useLeads(1, 5)` and `useLeaderboard(5)`
(Dashboard.jsx 10-11), Leads uses `limit = 20` (Leads.jsx 18), Leaderboard
uses `useLeaderboard(50)` (Leaderboard.jsx 10). -/
def Callback.run (cb : Callback) (data : Payload) : List Call :=
  match cb with
  | Callback.logConnected => []
  | Callback.logDisconnected => []
  | Callback.logConnectionError => []
  | Callback.dashboardScore _ => [Call.fetchLeads 1 5 "", Call.fetchLeaderboard 5]
  | Callback.dashboardLeaderboard _ => [Call.fetchLeaderboard 5]
  | Callback.leadsScore page search _ => [Call.fetchLeads page 20 search]
  | Callback.leaderboardRefetch _ => [Call.fetchLeaderboard 50]
  | Callback.handleScoreUpdate id _ => LeadDetail.handleScoreUpdate id data
  | Callback.other _ => []

/-- Whether a callback throws when it is called with `data`:
`handleScoreUpdate` reads `data.leadId`, a TypeError on a nullish `data`; no
other callback reads its argument. -/
def Callback.throws (cb : Callback) (data : Payload) : Bool :=
  match cb, data with
  | Callback.handleScoreUpdate _ _, Payload.nullish => true
  | _, _ => false

/-- The fetch calls made when one socket dispatches an event carrying `data`
to its handlers `cbs`: the emitter calls them in order, and an exception thrown
by one of them ends the dispatch, so the handlers after it are not called. -/
def dispatchCalls (cbs : List Callback) (data : Payload) : List Call :=
  match cbs with
  | [] => []
  | cb :: rest => cb.run data ++ (if cb.throws data then [] else dispatchCalls rest data)

/-- The fetch calls triggered by one broadcast of `e` carrying `data`: every
connected socket dispatches the event to its own handlers. -/
def SocketService.pushCalls (s : SocketService) (e : Event) (data : Payload) : List Call :=
  (s.sockets.map (fun k => dispatchCalls (k.receive e) data)).flatten

/-! ## useSocket.js -/

namespace useSocket

/-- Effect body of `useSocket` (useSocket.js 8). -/
def setup (s : SocketService) : SocketService := s.connect

/-- Effect cleanup of `useSocket` (useSocket.js 10-12). -/
def cleanup (s : SocketService) : SocketService := s.removeAllListeners

end useSocket

namespace useScoreUpdates

/-- Effect body of `useScoreUpdates` (useSocket.js 22-24); `none` is an
`undefined` argument. -/
def setup (s : SocketService) (onScoreUpdate : Option Callback) : SocketService :=
  match onScoreUpdate with
  | some cb => s.onScoreUpdate cb
  | none => s

/-- Effect cleanup of `useScoreUpdates` (useSocket.js 26-28). -/
def cleanup (s : SocketService) : SocketService := s.removeAllListeners

end useScoreUpdates

namespace useLeaderboardUpdates

/-- Effect body of `useLeaderboardUpdates` (useSocket.js 36-38). -/
def setup (s : SocketService) (onLeaderboardUpdate : Option Callback) : SocketService :=
  match onLeaderboardUpdate with
  | some cb => s.onLeaderboardUpdate cb
  | none => s

/-- Effect cleanup of `useLeaderboardUpdates` (useSocket.js 40-42). -/
def cleanup (s : SocketService) : SocketService := s.removeAllListeners

end useLeaderboardUpdates

/-! ## The screens

React runs the effects of a component in hook order. On mount every effect
body runs. On a re-render the effects whose dependencies changed run their
cleanups, in hook order, and then their bodies, in hook order. On unmount
every cleanup runs, in hook order. The callbacks the screens pass are inline
arrow functions, so each render passes new function objects; `tag` is the
identity of the closures of one render. -/

namespace Dashboard

/-- Mount effects (Dashboard.jsx 20-27): `useScoreUpdates` is `useSocket`
followed by its own effect, and so is `useLeaderboardUpdates`. -/
def mount (s : SocketService) (tag : Nat) : SocketService :=
  useLeaderboardUpdates.setup
    (useSocket.setup
      (useScoreUpdates.setup (useSocket.setup s) (some (Callback.dashboardScore tag))))
    (some (Callback.dashboardLeaderboard tag))

/-- A re-render: the `useSocket` effects have no dependency and do not run
again; the two binding effects depend on the callback and run again. -/
def rerender (s : SocketService) (tag : Nat) : SocketService :=
  useLeaderboardUpdates.setup
    (useScoreUpdates.setup
      (useLeaderboardUpdates.cleanup (useScoreUpdates.cleanup s))
      (some (Callback.dashboardScore tag)))
    (some (Callback.dashboardLeaderboard tag))

/-- Re-renders `n` times, with closure identities `tag`, `tag + 1`, ... -/
def rerenders (s : SocketService) (tag : Nat) : Nat → SocketService
  | 0 => s
  | n + 1 => rerenders (rerender s tag) (tag + 1) n

/-- Unmount: the four cleanups in hook order. -/
def unmount (s : SocketService) : SocketService :=
  useLeaderboardUpdates.cleanup
    (useSocket.cleanup (useScoreUpdates.cleanup (useSocket.cleanup s)))

end Dashboard

namespace Leads

/-- Mount effects (Leads.jsx 23-25): `useSocket`, then the binding effect of
`useScoreUpdates`. -/
def mount (s : SocketService) (page : Nat) (search : String) (tag : Nat) : SocketService :=
  useScoreUpdates.setup (useSocket.setup s) (some (Callback.leadsScore page search tag))

/-- A re-render: the binding effect runs its cleanup and then its body. -/
def rerender (s : SocketService) (page : Nat) (search : String) (tag : Nat) :
    SocketService :=
  useScoreUpdates.setup (useScoreUpdates.cleanup s)
    (some (Callback.leadsScore page search tag))

/-- Unmount: the two cleanups in hook order. -/
def unmount (s : SocketService) : SocketService :=
  useScoreUpdates.cleanup (useSocket.cleanup s)

end Leads

namespace Leaderboard

/-- Mount effects (Leaderboard.jsx 13-15). -/
def mount (s : SocketService) (tag : Nat) : SocketService :=
  useLeaderboardUpdates.setup (useSocket.setup s) (some (Callback.leaderboardRefetch tag))

/-- A re-render: the binding effect runs its cleanup and then its body. -/
def rerender (s : SocketService) (tag : Nat) : SocketService :=
  useLeaderboardUpdates.setup (useLeaderboardUpdates.cleanup s)
    (some (Callback.leaderboardRefetch tag))

/-- Unmount: the two cleanups in hook order. -/
def unmount (s : SocketService) : SocketService :=
  useLeaderboardUpdates.cleanup (useSocket.cleanup s)

end Leaderboard

namespace LeadDetail

/-- Body of the room effect (LeadDetail.jsx 22-26), socket part. -/
def roomSetup (s : SocketService) (id : Option String) : SocketService :=
  match id with
  | some v => if truthy (some v) then s.joinLead v else s
  | none => s

/-- Body of the room effect (LeadDetail.jsx 22-26), the fetch functions it
calls after `joinLead`. -/
def roomSetupCalls (id : Option String) : List Call :=
  if truthy id then [Call.fetchScoreHistory id, Call.fetchEvents id] else []

/-- Cleanup of the room effect (LeadDetail.jsx 28-32). -/
def roomCleanup (s : SocketService) (id : Option String) : SocketService :=
  match id with
  | some v => if truthy (some v) then s.leaveLead v else s
  | none => s

/-- Body of the binding effect (LeadDetail.jsx 37-44): a new
`handleScoreUpdate` closure over `id` is registered. -/
def bindingSetup (s : SocketService) (id : Option String) (tag : Nat) : SocketService :=
  s.onScoreUpdate (Callback.handleScoreUpdate id tag)

/-- Cleanup of the binding effect (LeadDetail.jsx 46-48). -/
def bindingCleanup (s : SocketService) : SocketService := s.removeAllListeners

/-- Mount effects in hook order: `useSocket`, the room effect, the binding
effect. -/
def mount (s : SocketService) (id : Option String) (tag : Nat) : SocketService :=
  bindingSetup (roomSetup (useSocket.setup s) id) id tag

/-- A re-render with the same `id`: `refetch` is a new function object on
every render, so the binding effect (dependencies `[id, socket, refetch]`)
runs again; the room effect (dependencies `[id, socket]`) does not. -/
def rerender (s : SocketService) (id : Option String) (tag : Nat) : SocketService :=
  bindingSetup (bindingCleanup s) id tag

/-- The route parameter changes from `old` to `id` without an unmount: both
effects run their cleanups (closed over `old`), then their bodies. -/
def changeId (s : SocketService) (old id : Option String) (tag : Nat) : SocketService :=
  bindingSetup (roomSetup (bindingCleanup (roomCleanup s old)) id) id tag

/-- Unmount: the three cleanups in hook order. -/
def unmount (s : SocketService) (id : Option String) : SocketService :=
  bindingCleanup (roomCleanup (useSocket.cleanup s) id)

end LeadDetail

/-- Modelled from the spec: the server side of the room mechanism, which is
not part of the client sources. A room is "a server-side grouping scoping push
notifications to one entity"; `join-lead` adds the emitting socket to the
lead's room and `leave-lead` removes it. The result is the list of rooms the
socket is a member of after the signals, oldest first. -/
def rooms (signals : List Signal) : List String :=
  signals.foldl
    (fun m sig =>
      match sig with
      | Signal.joinLead id => if id ∈ m then m else m ++ [id]
      | Signal.leaveLead id => m.filter (fun r => r != id))
    []

/-- The signals emitted on the socket the service currently holds. -/
def SocketService.emitted (s : SocketService) : List Signal :=
  match s.socket with
  | some k => k.emitted
  | none => []

/-- A service whose single socket has completed its handshake. -/
def SocketService.online : SocketService :=
  SocketService.new.connect.handshakeAll

/-! ## Transport errors -/

/-- The handshake of a pending transport fails: the socket is left errored
and emits `connect_error` to its own handlers. -/
def Socket.fail (k : Socket) : Socket :=
  match k.status with
  | Status.connecting => { k with status := Status.errored }
  | _ => k

/-- The callbacks registered on a socket under `e`, in registration order:
the ones the socket calls when it emits `e` itself (`connect`, `disconnect`,
`connect_error`). -/
def Socket.registered (k : Socket) (e : Event) : List Callback :=
  (k.handlers.filter (fun h => h.1 == e)).map Prod.snd

/-- The handshake of the socket the service holds fails. Nothing of the
service is involved: the service still references the same socket object. -/
def SocketService.connectError (s : SocketService) : SocketService :=
  { s with socket := s.socket.map Socket.fail }

/-- The callbacks the held socket calls when it emits `connect_error`. -/
def SocketService.connectErrorCallbacks (s : SocketService) : List Callback :=
  match s.socket with
  | some k => k.registered Event.connect_error
  | none => []

/-- The console message of the three handlers `connect()` registers
(socketService.js 20, 24, 28); they do nothing else. -/
def Callback.log (cb : Callback) : Option String :=
  match cb with
  | Callback.logConnected => some "Connected to server"
  | Callback.logDisconnected => some "Disconnected from server"
  | Callback.logConnectionError => some "Connection error:"
  | _ => none

/-! ## Lifecycle of the screens -/

/-- One effect body or effect cleanup of `useSocket`, `useScoreUpdates`,
`useLeaderboardUpdates` and the two LeadDetail effects. -/
inductive Step
  | useSocketSetup
  | useSocketCleanup
  | scoreUpdatesSetup (onScoreUpdate : Option Callback)
  | scoreUpdatesCleanup
  | leaderboardUpdatesSetup (onLeaderboardUpdate : Option Callback)
  | leaderboardUpdatesCleanup
  | roomSetup (id : Option String)
  | roomCleanup (id : Option String)
  | bindingSetup (id : Option String) (tag : Nat)
  | bindingCleanup
  deriving DecidableEq, Repr

/-- What a step does to the service. -/
def Step.run (st : Step) (s : SocketService) : SocketService :=
  match st with
  | Step.useSocketSetup => useSocket.setup s
  | Step.useSocketCleanup => useSocket.cleanup s
  | Step.scoreUpdatesSetup cb => useScoreUpdates.setup s cb
  | Step.scoreUpdatesCleanup => useScoreUpdates.cleanup s
  | Step.leaderboardUpdatesSetup cb => useLeaderboardUpdates.setup s cb
  | Step.leaderboardUpdatesCleanup => useLeaderboardUpdates.cleanup s
  | Step.roomSetup id => LeadDetail.roomSetup s id
  | Step.roomCleanup id => LeadDetail.roomCleanup s id
  | Step.bindingSetup id tag => LeadDetail.bindingSetup s id tag
  | Step.bindingCleanup => LeadDetail.bindingCleanup s

/-- A mount, re-render or unmount of one of the four screens. -/
inductive Lifecycle
  | dashboardMount (tag : Nat)
  | dashboardRerender (tag : Nat)
  | dashboardUnmount
  | leadsMount (page : Nat) (search : String) (tag : Nat)
  | leadsRerender (page : Nat) (search : String) (tag : Nat)
  | leadsUnmount
  | leaderboardMount (tag : Nat)
  | leaderboardRerender (tag : Nat)
  | leaderboardUnmount
  | leadDetailMount (id : Option String) (tag : Nat)
  | leadDetailRerender (id : Option String) (tag : Nat)
  | leadDetailChangeId (old id : Option String) (tag : Nat)
  | leadDetailUnmount (id : Option String)
  deriving DecidableEq, Repr

/-- The effect steps a lifecycle event runs, in order. -/
def Lifecycle.steps (ev : Lifecycle) : List Step :=
  match ev with
  | Lifecycle.dashboardMount tag =>
    [Step.useSocketSetup, Step.scoreUpdatesSetup (some (Callback.dashboardScore tag)),
     Step.useSocketSetup,
     Step.leaderboardUpdatesSetup (some (Callback.dashboardLeaderboard tag))]
  | Lifecycle.dashboardRerender tag =>
    [Step.scoreUpdatesCleanup, Step.leaderboardUpdatesCleanup,
     Step.scoreUpdatesSetup (some (Callback.dashboardScore tag)),
     Step.leaderboardUpdatesSetup (some (Callback.dashboardLeaderboard tag))]
  | Lifecycle.dashboardUnmount =>
    [Step.useSocketCleanup, Step.scoreUpdatesCleanup, Step.useSocketCleanup,
     Step.leaderboardUpdatesCleanup]
  | Lifecycle.leadsMount page search tag =>
    [Step.useSocketSetup, Step.scoreUpdatesSetup (some (Callback.leadsScore page search tag))]
  | Lifecycle.leadsRerender page search tag =>
    [Step.scoreUpdatesCleanup,
     Step.scoreUpdatesSetup (some (Callback.leadsScore page search tag))]
  | Lifecycle.leadsUnmount => [Step.useSocketCleanup, Step.scoreUpdatesCleanup]
  | Lifecycle.leaderboardMount tag =>
    [Step.useSocketSetup,
     Step.leaderboardUpdatesSetup (some (Callback.leaderboardRefetch tag))]
  | Lifecycle.leaderboardRerender tag =>
    [Step.leaderboardUpdatesCleanup,
     Step.leaderboardUpdatesSetup (some (Callback.leaderboardRefetch tag))]
  | Lifecycle.leaderboardUnmount => [Step.useSocketCleanup, Step.leaderboardUpdatesCleanup]
  | Lifecycle.leadDetailMount id tag =>
    [Step.useSocketSetup, Step.roomSetup id, Step.bindingSetup id tag]
  | Lifecycle.leadDetailRerender id tag => [Step.bindingCleanup, Step.bindingSetup id tag]
  | Lifecycle.leadDetailChangeId old id tag =>
    [Step.roomCleanup old, Step.bindingCleanup, Step.roomSetup id, Step.bindingSetup id tag]
  | Lifecycle.leadDetailUnmount id =>
    [Step.useSocketCleanup, Step.roomCleanup id, Step.bindingCleanup]

/-- Runs effect steps in order. -/
def runSteps (steps : List Step) (s : SocketService) : SocketService :=
  steps.foldl (fun s1 st => st.run s1) s

/-- Runs a sequence of lifecycle events in order. -/
def runLifecycle (evs : List Lifecycle) (s : SocketService) : SocketService :=
  evs.foldl (fun s1 ev => runSteps ev.steps s1) s

/-- The fetch functions an effect step calls. Of the effects that are steps
only the body of the room effect calls any: `fetchScoreHistory();
fetchEvents();` after `joinLead` (LeadDetail.jsx 22-26). The bodies and
cleanups of `useSocket`, `useScoreUpdates` and `useLeaderboardUpdates`
(useSocket.js 7-12, 21-28, 35-42), the cleanup of the room effect and the
binding effect (LeadDetail.jsx 28-32, 36-48) call methods of the service
only. -/
def Step.calls (st : Step) : List Call :=
  match st with
  | Step.roomSetup id => LeadDetail.roomSetupCalls id
  | _ => []

/-- Runs effect steps in order: the state of the service they leave and the
fetch calls they make on the way. The effects of the data hooks `useLeads`,
`useLead` and `useLeaderboard` are no steps: they are the `effect` functions
of those hooks. -/
def runEffects (steps : List Step) (s : SocketService) : SocketService × List Call :=
  steps.foldl (fun acc st => (st.run acc.1, acc.2 ++ st.calls)) (s, [])

/-- The relation kept by everything the screens do: a held handle stays
held, every existing transport keeps its status, and the only new transports
are pending ones. -/
def Keeps (s s1 : SocketService) : Prop :=
  (s.socket.isSome = true → s1.socket.isSome = true) ∧
  ∃ n, s1.sockets.map Socket.status
    = s.sockets.map Socket.status ++ List.replicate n Status.connecting

/-! ## Data fetching (useLeads.js, LeadDetail.jsx, ScoringRules.jsx)

The HTTP client `services/api.js` is an external collaborator. An awaited request either resolves
to a response, of which the fetch functions read `data` and `pagination`, or
rejects with an error, of which they read `message`. The answer of the server
to each request is the parameter `api`. -/

/-- A rejection or a thrown exception, as a `catch (err)` block reads it. -/
structure JsError where
  message : String
  deriving DecidableEq, Repr

/-- A resolved response: `response.data` and `response.pagination`. -/
structure Response (D P : Type) where
  data : D
  pagination : P
  deriving DecidableEq, Repr

/-- State of `useLeads` (useLeads.js 5-8); `none` is `null`. -/
structure LeadsState (D P : Type) where
  leads : D
  loading : Bool
  error : Option String
  pagination : Option P
  deriving DecidableEq, Repr

/-- State of `useLead` (useLeads.js 38-40). -/
structure LeadState (D : Type) where
  lead : Option D
  loading : Bool
  error : Option String
  deriving DecidableEq, Repr

/-- State of `useLeaderboard` (useLeads.js 70-72). -/
structure LeaderboardState (D : Type) where
  leaderboard : D
  loading : Bool
  error : Option String
  deriving DecidableEq, Repr

/-- State of the LeadDetail screen (LeadDetail.jsx 14-18): the state of
`useLead(id)`, whose `error` is the one the screen displays, and the screen's
own four state variables. -/
structure DetailState (D H : Type) where
  useLead : LeadState D
  scoreHistory : List H
  events : D
  historyLoading : Bool
  eventsLoading : Bool
  deriving DecidableEq, Repr

/-- State of the ScoringRules screen read by `fetchRules`
(ScoringRules.jsx 8-10). -/
structure RulesState (D : Type) where
  rules : D
  loading : Bool
  error : Option String
  deriving DecidableEq, Repr

/-- Function `fetchLeads` of `useLeads(page, limit, search)`
(useLeads.js 10-22), from the call to the settled promise. -/
def useLeads.fetchLeads {D P : Type} (page limit : Nat) (search : String)
    (api : Request → Except JsError (Response D P)) (st : LeadsState D P) :
    LeadsState D P :=
  let st1 := { st with loading := true }
  let st2 := { st1 with error := none }
  match api (Request.getLeads page limit search) with
  | Except.ok response =>
    let st3 := { st2 with leads := response.data }
    let st4 := { st3 with pagination := some response.pagination }
    { st4 with loading := false }
  | Except.error err =>
    let st3 := { st2 with error := some err.message }
    { st3 with loading := false }

/-- The effect of `useLeads` (useLeads.js 24-26): `fetchLeads()` on mount and
when `page`, `limit` or `search` changes. -/
def useLeads.effect {D P : Type} (page limit : Nat) (search : String)
    (api : Request → Except JsError (Response D P)) (st : LeadsState D P) :
    LeadsState D P :=
  useLeads.fetchLeads page limit search api st

/-- The `refetch` that `useLeads` returns (useLeads.js 33): `fetchLeads`. -/
def useLeads.refetch {D P : Type} (page limit : Nat) (search : String)
    (api : Request → Except JsError (Response D P)) (st : LeadsState D P) :
    LeadsState D P :=
  useLeads.fetchLeads page limit search api st

/-- Function `fetchLead` of `useLead(id)` (useLeads.js 42-55): returns at once
when `id` is falsy. -/
def useLead.fetchLead {D P : Type} (id : Option String)
    (api : Request → Except JsError (Response D P)) (st : LeadState D) : LeadState D :=
  match id with
  | none => st
  | some v =>
    if truthy (some v) then
      let st1 := { st with loading := true }
      let st2 := { st1 with error := none }
      match api (Request.getLeadById v) with
      | Except.ok response =>
        let st3 := { st2 with lead := some response.data }
        { st3 with loading := false }
      | Except.error err =>
        let st3 := { st2 with error := some err.message }
        { st3 with loading := false }
    else st

/-- The effect of `useLead` (useLeads.js 57-59). -/
def useLead.effect {D P : Type} (id : Option String)
    (api : Request → Except JsError (Response D P)) (st : LeadState D) : LeadState D :=
  useLead.fetchLead id api st

/-- The `refetch` that `useLead` returns (useLeads.js 65): `fetchLead`. -/
def useLead.refetch {D P : Type} (id : Option String)
    (api : Request → Except JsError (Response D P)) (st : LeadState D) : LeadState D :=
  useLead.fetchLead id api st

/-- Function `fetchLeaderboard` of `useLeaderboard(limit)` (useLeads.js 74-85). -/
def useLeaderboard.fetchLeaderboard {D P : Type} (limit : Nat)
    (api : Request → Except JsError (Response D P)) (st : LeaderboardState D) :
    LeaderboardState D :=
  let st1 := { st with loading := true }
  let st2 := { st1 with error := none }
  match api (Request.getLeaderboard limit) with
  | Except.ok response =>
    let st3 := { st2 with leaderboard := response.data }
    { st3 with loading := false }
  | Except.error err =>
    let st3 := { st2 with error := some err.message }
    { st3 with loading := false }

/-- The effect of `useLeaderboard` (useLeads.js 87-89). -/
def useLeaderboard.effect {D P : Type} (limit : Nat)
    (api : Request → Except JsError (Response D P)) (st : LeaderboardState D) :
    LeaderboardState D :=
  useLeaderboard.fetchLeaderboard limit api st

/-- The `refetch` that `useLeaderboard` returns (useLeads.js 95). -/
def useLeaderboard.refetch {D P : Type} (limit : Nat)
    (api : Request → Except JsError (Response D P)) (st : LeaderboardState D) :
    LeaderboardState D :=
  useLeaderboard.fetchLeaderboard limit api st

/-- Function `fetchScoreHistory` (LeadDetail.jsx 51-61). The `catch` block only
writes to the console. -/
def LeadDetail.fetchScoreHistory {D H P : Type} (id : Option String)
    (api : Request → Except JsError (Response (List H) P)) (st : DetailState D H) :
    DetailState D H :=
  let st1 := { st with historyLoading := true }
  match api (Request.getScoreHistory id 1 50) with
  | Except.ok response =>
    let st2 := { st1 with scoreHistory := response.data.reverse }
    { st2 with historyLoading := false }
  | Except.error _ => { st1 with historyLoading := false }

/-- Function `fetchEvents` (LeadDetail.jsx 63-73). The `catch` block only
writes to the console. -/
def LeadDetail.fetchEvents {D H P : Type} (id : Option String)
    (api : Request → Except JsError (Response D P)) (st : DetailState D H) :
    DetailState D H :=
  let st1 := { st with eventsLoading := true }
  match api (Request.getEvents id 1 20) with
  | Except.ok response =>
    let st2 := { st1 with events := response.data }
    { st2 with eventsLoading := false }
  | Except.error _ => { st1 with eventsLoading := false }

/-- Function `fetchRules` (ScoringRules.jsx 18-29). -/
def ScoringRules.fetchRules {D P : Type}
    (api : Request → Except JsError (Response D P)) (st : RulesState D) : RulesState D :=
  let st1 := { st with loading := true }
  let st2 := { st1 with error := none }
  match api Request.getScoringRules with
  | Except.ok response =>
    let st3 := { st2 with rules := response.data }
    { st3 with loading := false }
  | Except.error err =>
    let st3 := { st2 with error := some err.message }
    { st3 with loading := false }

/-- The answers of the server: `json` for the requests whose data the screens
store as received, `history` for the score-history request, whose data is read
as an array. -/
structure Api (D P H : Type) where
  json : Request → Except JsError (Response D P)
  history : Request → Except JsError (Response (List H) P)

/-- The snapshots the push callbacks can reach: the state of `useLeads`, of
`useLeaderboard`, and of the LeadDetail screen. -/
structure Snapshot (D P H : Type) where
  leads : LeadsState D P
  leaderboard : LeaderboardState D
  detail : DetailState D H

/-- What calling a fetch function does to the snapshots. -/
def Call.exec {D P H : Type} (c : Call) (api : Api D P H) (snap : Snapshot D P H) :
    Snapshot D P H :=
  match c with
  | Call.fetchLeads page limit search =>
    { snap with leads := useLeads.refetch page limit search api.json snap.leads }
  | Call.fetchLead id =>
    { snap with
      detail := { snap.detail with
        useLead := useLead.refetch id api.json snap.detail.useLead } }
  | Call.fetchLeaderboard limit =>
    { snap with leaderboard := useLeaderboard.refetch limit api.json snap.leaderboard }
  | Call.fetchScoreHistory id =>
    { snap with detail := LeadDetail.fetchScoreHistory id api.history snap.detail }
  | Call.fetchEvents id =>
    { snap with detail := LeadDetail.fetchEvents id api.json snap.detail }

/-- What a push callback called with `data` does to the snapshots: it calls
its fetch functions in order. -/
def Callback.handle {D P H : Type} (cb : Callback) (data : Payload) (api : Api D P H)
    (snap : Snapshot D P H) : Snapshot D P H :=
  (cb.run data).foldl (fun sn c => c.exec api sn) snap

/-! ## Manual event entry (Events.jsx) -/

/-- The characters `String.prototype.trim` removes: the white space and line
terminator code points of ECMAScript. -/
def isJsWhitespace (c : Char) : Bool :=
  c.toNat == 0x09 || c.toNat == 0x0A || c.toNat == 0x0B || c.toNat == 0x0C ||
  c.toNat == 0x0D || c.toNat == 0x20 || c.toNat == 0xA0 || c.toNat == 0x1680 ||
  (0x2000 ≤ c.toNat && c.toNat ≤ 0x200A) || c.toNat == 0x2028 || c.toNat == 0x2029 ||
  c.toNat == 0x202F || c.toNat == 0x205F || c.toNat == 0x3000 || c.toNat == 0xFEFF

/-- Model of `String.prototype.trim`. -/
def jsTrim (s : String) : String :=
  String.mk ((s.toList.dropWhile isJsWhitespace).reverse.dropWhile isJsWhitespace).reverse

/-- A text that is empty or made of white space only. -/
def isBlank (s : String) : Bool :=
  s.toList.all isJsWhitespace

/-- The manual event form (Events.jsx 12-18). -/
structure EventForm where
  event_id : String
  lead_id : String
  event_type : String
  timestamp : String
  metadata : String
  deriving DecidableEq, Repr

/-- The form-level message `{ type, text }`. -/
structure Message where
  type : String
  text : String
  deriving DecidableEq, Repr

/-- State of the Events screen read and written by `handleManualSubmit`
(Events.jsx 8-18). -/
structure EventsState where
  loading : Bool
  message : Option Message
  eventForm : EventForm
  deriving DecidableEq, Repr

/-- The object passed to `eventService.createEvent` (Events.jsx 42-46): the
form spread, with `timestamp` and `metadata` replaced. -/
structure EventData (J : Type) where
  event_id : String
  lead_id : String
  event_type : String
  timestamp : String
  metadata : J
  deriving DecidableEq, Repr

/-- The JavaScript built-ins `handleManualSubmit` relies on, for JSON values
of type `J`: `JSON.parse`, which throws on a text that is not valid JSON; the
empty object `{}`; `new Date(text).toISOString()`, which throws on an invalid
date; and the clock reading `new Date().toISOString().slice(0, 16)`. -/
structure Builtins (J : Type) where
  parse : String → Except JsError J
  emptyObject : J
  toISOString : String → Except JsError String
  now : String

/-- Function `handleManualSubmit` (Events.jsx 31-64), from the call to the
settled promise: the state it leaves and the arguments of the calls it made to
`eventService.createEvent`, whose outcome is the parameter `createEvent`. -/
def handleManualSubmit {J : Type} (b : Builtins J)
    (createEvent : EventData J → Except JsError Unit) (st : EventsState) :
    EventsState × List (EventData J) :=
  let st1 := { st with loading := true }
  let st2 := { st1 with message := none }
  let parsed : Except JsError J :=
    if jsTrim st.eventForm.metadata != "" then b.parse st.eventForm.metadata
    else Except.ok b.emptyObject
  match parsed with
  | Except.error error =>
    let st3 := { st2 with message := some { type := "error", text := error.message } }
    ({ st3 with loading := false }, [])
  | Except.ok metadata =>
    match b.toISOString st.eventForm.timestamp with
    | Except.error error =>
      let st3 := { st2 with message := some { type := "error", text := error.message } }
      ({ st3 with loading := false }, [])
    | Except.ok timestamp =>
      let eventData : EventData J :=
        { event_id := st.eventForm.event_id
          lead_id := st.eventForm.lead_id
          event_type := st.eventForm.event_type
          timestamp := timestamp
          metadata := metadata }
      match createEvent eventData with
      | Except.error error =>
        let st3 := { st2 with message := some { type := "error", text := error.message } }
        ({ st3 with loading := false }, [eventData])
      | Except.ok _ =>
        let st3 :=
          { st2 with
            message := some { type := "success", text := "Event created successfully!" } }
        let st4 :=
          { st3 with
            eventForm :=
              { event_id := "", lead_id := "", event_type := "PAGE_VIEW"
                timestamp := b.now, metadata := "\x7b\x7d" } }
        ({ st4 with loading := false }, [eventData])

/-! ## Rendering and derived values (Leaderboard.jsx, LeadDetail.jsx, Dashboard.jsx) -/

/-- The rows of the leaderboard table (Leaderboard.jsx 160-161):
`leaderboard.map((lead, index) => ...)` with `rank = index + 1`. -/
def Leaderboard.rows {L : Type} (leaderboard : List L) : List (Nat × L) :=
  leaderboard.enum.map (fun p => (p.1 + 1, p.2))

/-- A score-history record as the chart reads it: `timestamp`, `newScore`,
`previousScore`. -/
structure ScoreRecord (T S : Type) where
  timestamp : T
  newScore : S
  previousScore : S
  deriving DecidableEq, Repr

/-- A point of the score chart: `{ timestamp, score, previousScore }`. -/
structure ChartPoint (S : Type) where
  timestamp : String
  score : S
  previousScore : S
  deriving DecidableEq, Repr

/-- Function `formatChartData` (LeadDetail.jsx 85-91). The date formatting
`new Date(t).toLocaleDateString('en-US', ...)` is the parameter
`toLocaleDateString`. -/
def LeadDetail.formatChartData {T S : Type} (toLocaleDateString : T → String)
    (history : List (ScoreRecord T S)) : List (ChartPoint S) :=
  history.map (fun item =>
    { timestamp := toLocaleDateString item.timestamp
      score := item.newScore
      previousScore := item.previousScore })

/-- The integers `Number.isSafeInteger` accepts: every one of them is a
Number, and `String` writes it in decimal digits, with a minus sign when it is
negative. -/
abbrev SafeInteger : Type := { n : Int // n.natAbs ≤ 9007199254740991 }

/-- A lead as the Dashboard stats effect reads it: `currentScore`, an
integer in the safe range, every one of which is a double, and `events`, which
may be missing. -/
structure DashboardLead (E : Type) where
  currentScore : SafeInteger
  events : Option (List E)
  deriving DecidableEq, Repr

/-- The `stats` state of the Dashboard (Dashboard.jsx 12-17). -/
structure Stats where
  totalLeads : Nat
  averageScore : Int
  totalEvents : Nat
  topScore : Int
  deriving DecidableEq, Repr

/-- Initial value of `stats` (Dashboard.jsx 12-17). -/
def Dashboard.initialStats : Stats :=
  { totalLeads := 0, averageScore := 0, totalEvents := 0, topScore := 0 }

/-- Rounding to the nearest integer, a tie going to the even one: the
rounding of IEEE 754 arithmetic. -/
def roundHalfEven (x : ℚ) : ℤ :=
  if x - ⌊x⌋ < 1 / 2 then ⌊x⌋
  else if 1 / 2 < x - ⌊x⌋ then ⌊x⌋ + 1
  else if ⌊x⌋ % 2 = 0 then ⌊x⌋ else ⌊x⌋ + 1

/-- The Number an arithmetic operator returns for the exact result `q`: the
double nearest to it, that is `q` rounded to 53 significant bits, a tie going
to the even significand. With `2 ^ e ≤ |q| < 2 ^ (e + 1)` the doubles around
`q` are the multiples of `2 ^ (e - 52)`. The exponent range of a double is not
bounded here: the sums of fewer than `2 ^ 32` safe integers and their quotients
by a length stay far inside it. -/
def roundDouble (q : ℚ) : ℚ :=
  if q = 0 then 0
  else (roundHalfEven (q / 2 ^ (Int.log 2 |q| - 52)) : ℚ) * 2 ^ (Int.log 2 |q| - 52)

/-- Function `Math.round`: the integer nearest to the Number `x`, a half going
toward plus infinity. -/
def mathRound (x : ℚ) : ℤ := ⌊x + 1 / 2⌋

/-- The average as the specification words it: the integer nearest to the
exact quotient `num / den`, a half going toward plus infinity. -/
def nearestHalfUp (num den : Int) : Int :=
  (2 * num + den) / (2 * den)

/-- The expression `lead.events?.length || 0` (Dashboard.jsx 37). -/
def eventCount {E : Type} (lead : DashboardLead E) : Nat :=
  match lead.events with
  | some events => events.length
  | none => 0

/-- The stats effect (Dashboard.jsx 29-41), run when `leads` changes: the new
value of `stats`. The `reduce` that adds the scores and the division by
`leads.length` are operations on doubles, each rounding its exact result.
`Math.max(...scores)` of a non-empty list is the fold of `max` from its first
element. The lengths of arrays held in memory add up to less than `2 ^ 53`, so
the sum of `totalEvents` is exact. -/
def Dashboard.statsEffect {E : Type} (leads : List (DashboardLead E)) (stats : Stats) :
    Stats :=
  match leads with
  | [] => stats
  | first :: rest =>
    let totalScore : ℚ :=
      (first :: rest).foldl (fun sum lead => roundDouble (sum + (lead.currentScore.val : ℚ))) 0
    let topScore :=
      rest.foldl (fun m lead => max m lead.currentScore.val) first.currentScore.val
    { totalLeads := (first :: rest).length
      averageScore := mathRound (roundDouble (totalScore / ((first :: rest).length : ℚ)))
      totalEvents := (first :: rest).foldl (fun sum lead => sum + eventCount lead) 0
      topScore := topScore }

/-! ## CSV export (exportUtils.js) -/

/-- The double quote character. -/
def dquote : Char := Char.ofNat 34

/-- The comma character. -/
def comma : Char := Char.ofNat 44

/-- The values a property of an exported row can hold. A Number is `number n`
when it is a safe integer (both zeros are `number 0`), `nan` when it is `NaN`,
and `otherNumber text` otherwise: a fraction, an integer beyond the safe range
or an infinity, which is truthy, with the text `String(value)` gives for it
(`"1e+21"` for the number 1e21). `object` stands for any other value, which is
truthy, with the text `String(value)` gives for it. -/
inductive CellValue
  | undefined
  | null
  | bool (b : Bool)
  | number (n : SafeInteger)
  | nan
  | otherNumber (text : String)
  | string (s : String)
  | object (text : String)
  deriving DecidableEq, Repr

/-- JavaScript truthiness: `undefined`, `null`, `false`, `0`, `NaN` and the
empty string are falsy. -/
def CellValue.truthy (v : CellValue) : Bool :=
  match v with
  | CellValue.undefined => false
  | CellValue.null => false
  | CellValue.bool b => b
  | CellValue.number n => n.val != 0
  | CellValue.nan => false
  | CellValue.otherNumber _ => true
  | CellValue.string s => s != ""
  | CellValue.object _ => true

/-- The text `Array.prototype.join` puts for an element: the empty text for
`undefined` and `null`, the default string conversion otherwise. -/
def CellValue.joinText (v : CellValue) : String :=
  match v with
  | CellValue.undefined => ""
  | CellValue.null => ""
  | CellValue.bool b => if b then "true" else "false"
  | CellValue.number n => toString n.val
  | CellValue.nan => "NaN"
  | CellValue.otherNumber text => text
  | CellValue.string s => s
  | CellValue.object text => text

/-- The expression `value || ''`. -/
def CellValue.orEmpty (v : CellValue) : CellValue :=
  if v.truthy then v else CellValue.string ""

/-- The replacement `value.replace(/"/g, '""')`: every double quote is
doubled. -/
def escapeQuotes : List Char → List Char
  | [] => []
  | c :: rest =>
    if c = dquote then dquote :: dquote :: escapeQuotes rest else c :: escapeQuotes rest

/-- The text of one cell (exportUtils.js 18-25), as `join` then writes it. -/
def csvField (value : CellValue) : String :=
  match value with
  | CellValue.string s =>
    if comma ∈ s.toList ∨ dquote ∈ s.toList then
      String.mk (dquote :: escapeQuotes s.toList ++ [dquote])
    else (CellValue.string s).orEmpty.joinText
  | v => v.orEmpty.joinText

/-- An exported object: its own properties in `Object.keys` order. -/
abbrev Row := List (String × CellValue)

/-- The property read `row[header]`: `undefined` when the row has no such
property. -/
def rowGet (row : Row) (header : String) : CellValue :=
  match row.find? (fun p => p.1 == header) with
  | some p => p.2
  | none => CellValue.undefined

/-- The rows of the CSV text (exportUtils.js 13-26): the header row from the
keys of `data[0]`, then one row per element of `data`. -/
def csvRows (first : Row) (data : List Row) : List String :=
  let headers := first.map Prod.fst
  String.intercalate "," headers ::
    data.map (fun row => String.intercalate "," (headers.map (fun h => csvField (rowGet row h))))

/-- What a call of `exportToCSV` does: the alert it shows, the CSV text it
builds, and the name of the file it downloads. -/
structure ExportResult where
  alert : Option String
  csvContent : Option String
  download : Option String
  deriving DecidableEq, Repr

/-- Function `exportToCSV(data, filename = 'export.csv')` (exportUtils.js
3-43); `none` is a `null` or `undefined` argument, and `downloadSupported` is
the test `link.download !== undefined`. -/
def exportToCSV (data : Option (List Row)) (filename : Option String)
    (downloadSupported : Bool) : ExportResult :=
  match data with
  | none => { alert := some "No data to export", csvContent := none, download := none }
  | some [] => { alert := some "No data to export", csvContent := none, download := none }
  | some (first :: rest) =>
    { alert := none
      csvContent := some (String.intercalate "\n" (csvRows first (first :: rest)))
      download := if downloadSupported then some (filename.getD "export.csv") else none }

/-- A lead as `formatLeadsForExport` reads it. -/
structure ExportLead where
  id : CellValue
  email : CellValue
  firstName : CellValue
  lastName : CellValue
  company : CellValue
  phone : CellValue
  currentScore : CellValue
  maxScore : CellValue
  lastProcessedEventTime : CellValue
  createdAt : CellValue
  deriving DecidableEq, Repr

/-- Function `formatLeadsForExport` (exportUtils.js 45-60); the date
formatting `new Date(v).toLocaleDateString()` is the parameter
`toLocaleDateString`. -/
def formatLeadsForExport (toLocaleDateString : CellValue → String)
    (leads : List ExportLead) : List Row :=
  leads.map (fun lead =>
    [("Lead ID", lead.id),
     ("Email", lead.email),
     ("First Name", lead.firstName.orEmpty),
     ("Last Name", lead.lastName.orEmpty),
     ("Company", lead.company.orEmpty),
     ("Phone", lead.phone.orEmpty),
     ("Current Score", lead.currentScore),
     ("Max Score", lead.maxScore),
     ("Last Activity",
       if lead.lastProcessedEventTime.truthy then
         CellValue.string (toLocaleDateString lead.lastProcessedEventTime)
       else CellValue.string "No activity"),
     ("Created Date", CellValue.string (toLocaleDateString lead.createdAt))])

/-- The standard CSV quoting rule, applied to the text after the opening
quote: a doubled quote stands for one quote, a single quote ends the field and
must be its last character. -/
def csvUnquoteBody : List Char → Option (List Char)
  | [] => none
  | c :: rest =>
    if c = dquote then
      match rest with
      | [] => some []
      | c2 :: rest2 =>
        if c2 = dquote then (csvUnquoteBody rest2).map (fun t => dquote :: t) else none
    else (csvUnquoteBody rest).map (fun t => c :: t)

/-- The standard CSV quoting rule for one field: a field that starts with a
double quote is read by `csvUnquoteBody`, any other field is taken as it
stands. -/
def csvParseField (field : String) : Option String :=
  match field.toList with
  | [] => some ""
  | c :: rest =>
    if c = dquote then (csvUnquoteBody rest).map String.mk else some field

/-! ## Lemmas -/

/-! ### The emitter model -/

/-- Removing from `l₁` the first occurrence of each element of `l₂` lowers
every count by the count in `l₂`. -/
theorem count_diff_eq {α : Type} [BEq α] [LawfulBEq α] (a : α) (l₂ : List α) :
    ∀ l₁ : List α, (l₁.diff l₂).count a = l₁.count a - l₂.count a := by
  induction l₂ with
  | nil => intro l₁; simp
  | cons b t ih =>
    intro l₁
    rw [List.diff_cons, ih, List.count_erase, List.count_cons]
    by_cases hb : b = a
    · subst hb; simp; omega
    · have : (b == a) = false := by simpa using hb
      simp [this]

/-- The `forEach` loop of `removeAllListeners` on a socket: every entry of the
map has its first matching handler removed; status and emitted signals are
untouched. -/
theorem foldl_off_eq (l : List (Event × Callback)) :
    ∀ k : Socket, l.foldl (fun k1 h => k1.off h.1 h.2) k
      = { k with handlers := k.handlers.diff l } := by
  induction l with
  | nil => intro k; simp
  | cons h t ih =>
    intro k
    rw [List.foldl_cons, ih]
    simp [Socket.off, List.diff_cons]

/-! ### `connect` and event delivery -/

/-- The shape of the state after `connect()`: the service holds a socket that
is connected or will connect, the map is untouched, the topic handlers on the
held socket and every other socket were already there before the call. -/
theorem connect_shape (s : SocketService) :
    ∃ k0, s.connect.socket = some k0 ∧ s.connect.listeners = s.listeners ∧
      k0.handshake.connected = true ∧
      (∀ cb, (Event.scoreUpdated, cb) ∈ k0.handlers → s.attached Event.scoreUpdated cb) ∧
      (∀ k ∈ s.connect.orphans, k ∈ s.sockets) := by
  cases hs : s.socket with
  | none =>
    refine ⟨_, by simp [SocketService.connect, SocketService.socketConnected, hs]; rfl,
      ?_, ?_, ?_, ?_⟩
    · simp [SocketService.connect, SocketService.socketConnected, hs]
    · decide
    · intro cb hcb
      simp [io, Socket.on] at hcb
    · intro k hk
      simpa [SocketService.connect, SocketService.socketConnected, hs,
        SocketService.sockets] using hk
  | some k =>
    by_cases hk : k.connected = true
    · have h : s.connect = s := by
        simp [SocketService.connect, SocketService.socketConnected, hs, hk]
      refine ⟨k, by rw [h]; exact hs, by rw [h], ?_, ?_, ?_⟩
      · have hst : k.status = Status.connected := by
          simpa [Socket.connected] using hk
        simp [Socket.handshake, hst, Socket.connected]
      · intro cb hcb
        exact ⟨k, by simp [SocketService.sockets, hs], hcb⟩
      · intro k1 hk1
        rw [h] at hk1
        simp [SocketService.sockets, hk1]
    · refine ⟨_, by simp [SocketService.connect, SocketService.socketConnected, hs, hk]; rfl,
        ?_, ?_, ?_, ?_⟩
      · simp [SocketService.connect, SocketService.socketConnected, hs, hk]
      · decide
      · intro cb hcb
        simp [io, Socket.on] at hcb
      · intro k1 hk1
        simpa [SocketService.connect, SocketService.socketConnected, hs, hk,
          SocketService.sockets] using hk1

/-- The map stores the pair that `Map.set` is given. -/
theorem mem_mapSet (m : List (Event × Callback)) (e : Event) (cb : Callback) :
    (e, cb) ∈ mapSet m e cb := by
  induction m with
  | nil => simp [mapSet]
  | cons h t ih =>
    obtain ⟨e1, c1⟩ := h
    by_cases he : e1 = e
    · simp [mapSet, he]
    · simp [mapSet, he, ih]

/-- A callback invoked by a broadcast is attached to a socket. -/
theorem attached_of_mem_push (s : SocketService) (e : Event) (cb : Callback)
    (h : cb ∈ s.push e) : s.attached e cb := by
  simp only [SocketService.push, List.mem_flatten, List.mem_map] at h
  obtain ⟨l, ⟨k, hk, rfl⟩, hcb⟩ := h
  refine ⟨k, hk, ?_⟩
  unfold Socket.receive at hcb
  split at hcb
  · simp only [List.mem_map, List.mem_filter] at hcb
    obtain ⟨⟨e1, c1⟩, ⟨hmem, he⟩, hc⟩ := hcb
    simp at he hc
    subst he; subst hc
    exact hmem
  · simp at hcb

/-- Completing a handshake does not touch the handlers. -/
theorem handshake_handlers (k : Socket) : k.handshake.handlers = k.handlers := by
  unfold Socket.handshake
  split <;> rfl

/-- Completing the handshakes attaches nothing. -/
theorem attached_handshakeAll (s : SocketService) (e : Event) (cb : Callback)
    (h : s.handshakeAll.attached e cb) : s.attached e cb := by
  obtain ⟨k, hk, hcb⟩ := h
  simp only [SocketService.sockets, SocketService.handshakeAll, List.mem_append,
    List.mem_map] at hk
  rcases hk with ⟨k1, hk1, rfl⟩ | hk
  · exact ⟨k1, by simp [SocketService.sockets, hk1], by rwa [handshake_handlers] at hcb⟩
  · cases hs : s.socket with
    | none => simp [hs] at hk
    | some k1 =>
      simp [hs] at hk
      subst hk
      exact ⟨k1, by simp [SocketService.sockets, hs], by rwa [handshake_handlers] at hcb⟩

/-- A socket with no handler under `e` invokes nothing when `e` arrives. -/
theorem receive_eq_nil (k : Socket) (e : Event) (h : ∀ cb, (e, cb) ∉ k.handlers) :
    k.receive e = [] := by
  unfold Socket.receive
  split
  · have : k.handlers.filter (fun h => h.1 == e) = [] := by
      rw [List.filter_eq_nil_iff]
      rintro ⟨e1, c1⟩ hm
      simp only [beq_iff_eq]
      rintro rfl
      exact h c1 hm
    simp [this]
  · rfl

/-- Whether a handshake ends connected depends on the status alone. -/
theorem handshake_connected_congr (k k1 : Socket) (h : k1.status = k.status) :
    k1.handshake.connected = k.handshake.connected := by
  cases hk : k.status <;> simp [Socket.handshake, Socket.connected, h, hk]

/-- The state after the LeadDetail mount effects for a non-empty `id`: one
`join-lead` signal and one handler added on the socket held after
`connect()`. -/
theorem mount_shape (s : SocketService) (id : String) (tag : Nat) (hid : id ≠ "") :
    ∃ k0, s.connect.socket = some k0 ∧
      LeadDetail.mount s (some id) tag =
        { socket := some
            { status := k0.status
              handlers := k0.handlers ++
                [(Event.scoreUpdated, Callback.handleScoreUpdate (some id) tag)]
              emitted := k0.emitted ++ [Signal.joinLead id] }
          listeners := mapSet s.listeners Event.scoreUpdated
            (Callback.handleScoreUpdate (some id) tag)
          orphans := s.connect.orphans } := by
  obtain ⟨k0, h0, hl, -, -, -⟩ := connect_shape s
  refine ⟨k0, h0, ?_⟩
  have ht : truthy (some id) = true := by simp [truthy, hid]
  rw [← hl]
  simp only [LeadDetail.mount, useSocket.setup, LeadDetail.roomSetup,
    LeadDetail.bindingSetup]
  generalize s.connect = s0 at h0 ⊢
  simp [ht, SocketService.joinLead, SocketService.ensureSocket, h0,
    SocketService.onScoreUpdate, Socket.emit, Socket.on]

/-- The state after mounting LeadDetail for `a` and changing the route
parameter to `b`. -/
theorem changeId_shape (s : SocketService) (a b : String) (ta tb : Nat)
    (ha : a ≠ "") (hb : b ≠ "") :
    ∃ k0, s.connect.socket = some k0 ∧
      LeadDetail.changeId (LeadDetail.mount s (some a) ta) (some a) (some b) tb =
        { socket := some
            { status := k0.status
              handlers :=
                (k0.handlers ++
                  [(Event.scoreUpdated, Callback.handleScoreUpdate (some a) ta)]).diff
                  (mapSet s.listeners Event.scoreUpdated
                    (Callback.handleScoreUpdate (some a) ta)) ++
                [(Event.scoreUpdated, Callback.handleScoreUpdate (some b) tb)]
              emitted := k0.emitted ++
                [Signal.joinLead a, Signal.leaveLead a, Signal.joinLead b] }
          listeners := [(Event.scoreUpdated, Callback.handleScoreUpdate (some b) tb)]
          orphans := s.connect.orphans } := by
  obtain ⟨k0, h0, hm⟩ := mount_shape s a ta ha
  refine ⟨k0, h0, ?_⟩
  have hta : truthy (some a) = true := by simp [truthy, ha]
  have htb : truthy (some b) = true := by simp [truthy, hb]
  rw [hm]
  simp [LeadDetail.changeId, LeadDetail.roomCleanup, LeadDetail.bindingCleanup,
    LeadDetail.roomSetup, LeadDetail.bindingSetup, hta, htb, SocketService.leaveLead,
    SocketService.removeAllListeners, foldl_off_eq, SocketService.joinLead,
    SocketService.ensureSocket, SocketService.onScoreUpdate, mapSet, Socket.emit, Socket.on]

/-- A new service has no socket, hence no handler attached anywhere. -/
theorem new_not_attached (cb : Callback) :
    ¬ SocketService.new.attached Event.scoreUpdated cb := by
  rintro ⟨k, hk, -⟩
  simp [SocketService.sockets, SocketService.new] at hk

/-- The only net change of handlers made by mounting LeadDetail for `a` and
then changing the route parameter to `b` is the handler closed over `b`. -/
theorem changeId_attached (s : SocketService) (a b : String) (ta tb : Nat)
    (ha : a ≠ "") (hb : b ≠ "") (cb : Callback)
    (h : (LeadDetail.changeId (LeadDetail.mount s (some a) ta) (some a) (some b)
      tb).attached Event.scoreUpdated cb) :
    s.attached Event.scoreUpdated cb ∨ cb = Callback.handleScoreUpdate (some b) tb := by
  obtain ⟨k0, h0, hl, -, hk0, horph⟩ := connect_shape s
  obtain ⟨k0', h0', hc⟩ := changeId_shape s a b ta tb ha hb
  rw [h0] at h0'
  cases h0'
  rw [hc] at h
  obtain ⟨k, hk, hmem⟩ := h
  simp only [SocketService.sockets, List.mem_append, Option.toList, List.mem_singleton] at hk
  rcases hk with hk | hk
  · left
    exact ⟨k, horph k hk, hmem⟩
  · subst hk
    simp only [List.mem_append, List.mem_singleton, Prod.mk.injEq, true_and] at hmem
    rcases hmem with hmem | hmem
    · left
      apply hk0
      by_cases hcb : cb = Callback.handleScoreUpdate (some a) ta
      · subst hcb
        have hpos := List.count_pos_iff.mpr hmem
        have hcount := count_diff_eq
          (Event.scoreUpdated, Callback.handleScoreUpdate (some a) ta)
          (mapSet s.listeners Event.scoreUpdated (Callback.handleScoreUpdate (some a) ta))
          (k0.handlers ++ [(Event.scoreUpdated, Callback.handleScoreUpdate (some a) ta)])
        have hin := List.count_pos_iff.mpr
          (mem_mapSet s.listeners Event.scoreUpdated (Callback.handleScoreUpdate (some a) ta))
        rw [List.count_append, List.count_singleton_self] at hcount
        apply List.count_pos_iff.mp
        omega
      · have := List.diff_subset _ _ hmem
        simp only [List.mem_append, List.mem_singleton, Prod.mk.injEq, true_and] at this
        rcases this with h1 | h1
        · exact h1
        · exact absurd h1 hcb
    · right
      exact hmem

/-! ### Dispatch of an event to the handlers -/

/-- Handlers that make no call leave a dispatch without calls. -/
theorem dispatchCalls_eq_nil (cbs : List Callback) (data : Payload)
    (h : ∀ cb ∈ cbs, cb.run data = []) : dispatchCalls cbs data = [] := by
  induction cbs with
  | nil => rfl
  | cons cb rest ih =>
    simp only [dispatchCalls, h cb (List.mem_cons_self _ _), List.nil_append]
    split
    · rfl
    · exact ih (fun c hc => h c (List.mem_cons_of_mem _ hc))

/-- A `handleScoreUpdate` closure registered last adds exactly its own calls
to a dispatch: it throws only on a nullish payload, on which it makes no call,
and only a nullish payload makes an earlier handler throw. -/
theorem dispatchCalls_append_handler (cbs : List Callback) (id : Option String)
    (tag : Nat) (data : Payload) :
    dispatchCalls (cbs ++ [Callback.handleScoreUpdate id tag]) data
      = dispatchCalls cbs data ++ (Callback.handleScoreUpdate id tag).run data := by
  induction cbs with
  | nil => simp [dispatchCalls]
  | cons cb rest ih =>
    simp only [List.cons_append, dispatchCalls, ih]
    by_cases ht : cb.throws data = true
    · have hd : data = Payload.nullish := by
        cases cb <;> cases data <;> simp_all [Callback.throws]
      subst hd
      simp [ht, Callback.run, LeadDetail.handleScoreUpdate]
    · simp [ht, List.append_assoc, ih]

/-- A callback a socket of the service receives is among those the broadcast
reaches. -/
theorem mem_push_of_mem_receive (s : SocketService) (e : Event) (k : Socket)
    (cb : Callback) (hk : k ∈ s.sockets) (hcb : cb ∈ k.receive e) : cb ∈ s.push e := by
  simp only [SocketService.push, List.mem_flatten, List.mem_map]
  exact ⟨k.receive e, ⟨k, hk, rfl⟩, hcb⟩

/-- The sockets after all handshakes complete. -/
theorem handshakeAll_sockets (s : SocketService) :
    s.handshakeAll.sockets = s.sockets.map Socket.handshake := by
  cases hs : s.socket <;> simp [SocketService.handshakeAll, SocketService.sockets, hs]

/-- Calling `connect()` changes neither the callbacks a `score-updated`
broadcast reaches nor the calls it triggers: a socket it creates carries the
three logging handlers only. -/
theorem connect_push (s : SocketService) (data : Payload) :
    s.connect.handshakeAll.push Event.scoreUpdated
      = s.handshakeAll.push Event.scoreUpdated ∧
    s.connect.handshakeAll.pushCalls Event.scoreUpdated data
      = s.handshakeAll.pushCalls Event.scoreUpdated data := by
  by_cases hc : s.socketConnected = true
  · have h : s.connect = s := by simp [SocketService.connect, hc]
    rw [h]
    exact ⟨rfl, rfl⟩
  · have hs : s.connect.sockets = s.sockets ++ SocketService.new.connect.socket.toList := by
      simp only [SocketService.connect, hc, SocketService.sockets, SocketService.new]
      simp [SocketService.socketConnected]
    simp only [SocketService.push, SocketService.pushCalls, handshakeAll_sockets, hs,
      List.map_append, List.flatten_append]
    constructor
    · have : (List.map (fun k => k.receive Event.scoreUpdated)
          (List.map Socket.handshake SocketService.new.connect.socket.toList)).flatten
          = [] := by decide
      rw [this, List.append_nil]
    · have : (List.map (fun k => dispatchCalls (k.receive Event.scoreUpdated) data)
          (List.map Socket.handshake SocketService.new.connect.socket.toList)).flatten
          = [] := by
        have hr : (List.map Socket.handshake SocketService.new.connect.socket.toList)
            = [(((io.on Event.connect Callback.logConnected).on Event.disconnect
                Callback.logDisconnected).on Event.connect_error
                Callback.logConnectionError).handshake] := by decide
        rw [hr]
        have hrec : ((((io.on Event.connect Callback.logConnected).on Event.disconnect
            Callback.logDisconnected).on Event.connect_error
            Callback.logConnectionError).handshake).receive Event.scoreUpdated = [] := by
          decide
        simp [hrec, dispatchCalls]
      rw [this, List.append_nil]

/-- Mounting LeadDetail for a non-empty `id` adds exactly one handler, the
closure over `id`, registered last on the held socket: a `score-updated`
broadcast reaches the callbacks it reached before and then this one, and
triggers the calls it triggered before and then the calls of this one. This
holds for every state of the service before the mount. -/
theorem mount_push (s : SocketService) (id : String) (tag : Nat) (data : Payload)
    (hid : id ≠ "") :
    (LeadDetail.mount s (some id) tag).handshakeAll.push Event.scoreUpdated
      = s.handshakeAll.push Event.scoreUpdated
        ++ [Callback.handleScoreUpdate (some id) tag] ∧
    (LeadDetail.mount s (some id) tag).handshakeAll.pushCalls Event.scoreUpdated data
      = s.handshakeAll.pushCalls Event.scoreUpdated data
        ++ (Callback.handleScoreUpdate (some id) tag).run data := by
  obtain ⟨hp, hpc⟩ := connect_push s data
  rw [← hp, ← hpc]
  obtain ⟨k0, h0, hl, hconn, -, -⟩ := connect_shape s
  obtain ⟨k0', h0', hm⟩ := mount_shape s id tag hid
  rw [h0] at h0'
  cases h0'
  have hs0 : s.connect.sockets = s.connect.orphans ++ [k0] := by
    simp [SocketService.sockets, h0]
  have hrec : (Socket.handshake
      { status := k0.status
        handlers := k0.handlers ++
          [(Event.scoreUpdated, Callback.handleScoreUpdate (some id) tag)]
        emitted := k0.emitted ++ [Signal.joinLead id] }).receive Event.scoreUpdated
      = k0.handshake.receive Event.scoreUpdated
        ++ [Callback.handleScoreUpdate (some id) tag] := by
    have hc := handshake_connected_congr k0
      { status := k0.status
        handlers := k0.handlers ++
          [(Event.scoreUpdated, Callback.handleScoreUpdate (some id) tag)]
        emitted := k0.emitted ++ [Signal.joinLead id] } rfl
    rw [hconn] at hc
    unfold Socket.receive
    rw [hc, hconn, handshake_handlers, handshake_handlers]
    simp [List.filter_append]
  rw [hm]
  simp only [SocketService.push, SocketService.pushCalls, handshakeAll_sockets, hs0]
  simp only [SocketService.sockets, Option.toList, List.map_append, List.map_cons,
    List.map_nil, List.flatten_append, List.flatten_cons, List.flatten_nil,
    List.append_nil, hrec, dispatchCalls_append_handler, List.append_assoc]
  exact ⟨trivial, trivial⟩

/-- With no `score-updated` handler on any socket, a `score-updated`
broadcast triggers no call. -/
theorem pushCalls_eq_nil_of_free (s : SocketService) (data : Payload)
    (hfree : ∀ cb, ¬ s.attached Event.scoreUpdated cb) :
    s.handshakeAll.pushCalls Event.scoreUpdated data = [] := by
  unfold SocketService.pushCalls
  rw [handshakeAll_sockets, List.flatten_eq_nil_iff]
  intro l hl
  simp only [List.mem_map] at hl
  obtain ⟨k1, ⟨k, hk, rfl⟩, rfl⟩ := hl
  have : k.handshake.receive Event.scoreUpdated = [] := by
    apply receive_eq_nil
    intro cb hcb
    rw [handshake_handlers] at hcb
    exact hfree cb ⟨k, hk, hcb⟩
  rw [this]
  rfl

/-- What `handleScoreUpdate` closed over `id` calls: `refetch` and
`fetchScoreHistory` when `data.leadId === id`, nothing for any other payload. -/
theorem handleScoreUpdate_run (id : String) (tag : Nat) (data : Payload) :
    (data = Payload.object (JsValue.string id) →
      (Callback.handleScoreUpdate (some id) tag).run data
        = [Call.fetchLead (some id), Call.fetchScoreHistory (some id)]) ∧
    (data ≠ Payload.object (JsValue.string id) →
      (Callback.handleScoreUpdate (some id) tag).run data = []) := by
  constructor
  · intro hd
    subst hd
    simp [Callback.run, LeadDetail.handleScoreUpdate, strictEq]
  · intro hd
    simp only [Callback.run]
    cases data with
    | nullish => rfl
    | object v =>
      cases v with
      | string x =>
        have hx : x ≠ id := fun h => hd (by rw [h])
        simp [LeadDetail.handleScoreUpdate, strictEq, hx]
      | _ => simp [LeadDetail.handleScoreUpdate, strictEq]

/-! ### The `listeners` map and the service methods -/

/-- Reading a key just written returns the written callback. -/
theorem mapGet_mapSet_self (m : List (Event × Callback)) (e : Event) (cb : Callback) :
    mapGet (mapSet m e cb) e = some cb := by
  induction m with
  | nil => simp [mapSet, mapGet]
  | cons h t ih =>
    obtain ⟨e1, c1⟩ := h
    by_cases he : e1 = e
    · simp [mapSet, mapGet, he]
    · simp only [mapSet, he, if_false]
      simp only [mapGet] at ih ⊢
      rw [List.find?_cons_of_neg _ (by simpa using he)]
      exact ih

/-- Writing one key leaves every other key as it was. -/
theorem mapGet_mapSet_ne (m : List (Event × Callback)) (e e1 : Event) (cb : Callback)
    (hne : e1 ≠ e) : mapGet (mapSet m e cb) e1 = mapGet m e1 := by
  induction m with
  | nil =>
    simp only [mapSet, mapGet]
    rw [List.find?_cons_of_neg _ (by simpa using Ne.symm hne)]
  | cons h t ih =>
    obtain ⟨e2, c2⟩ := h
    by_cases he : e2 = e
    · subst he
      simp only [mapSet, if_true, mapGet]
      rw [List.find?_cons_of_neg _ (by simpa using Ne.symm hne),
        List.find?_cons_of_neg _ (by simpa using Ne.symm hne)]
    · simp only [mapSet, he, if_false]
      simp only [mapGet] at ih ⊢
      by_cases h2 : e2 = e1
      · subst h2
        simp
      · rw [List.find?_cons_of_neg _ (by simpa using h2),
          List.find?_cons_of_neg _ (by simpa using h2)]
        exact ih

/-! ### The screens as sequences of effect steps -/

/-- The screen functions are their step sequences. -/
theorem lifecycle_steps_eq (s : SocketService) (tag page : Nat) (search : String)
    (old id : Option String) :
    runSteps (Lifecycle.dashboardMount tag).steps s = Dashboard.mount s tag ∧
    runSteps (Lifecycle.dashboardRerender tag).steps s = Dashboard.rerender s tag ∧
    runSteps Lifecycle.dashboardUnmount.steps s = Dashboard.unmount s ∧
    runSteps (Lifecycle.leadsMount page search tag).steps s = Leads.mount s page search tag ∧
    runSteps (Lifecycle.leadsRerender page search tag).steps s
      = Leads.rerender s page search tag ∧
    runSteps Lifecycle.leadsUnmount.steps s = Leads.unmount s ∧
    runSteps (Lifecycle.leaderboardMount tag).steps s = Leaderboard.mount s tag ∧
    runSteps (Lifecycle.leaderboardRerender tag).steps s = Leaderboard.rerender s tag ∧
    runSteps Lifecycle.leaderboardUnmount.steps s = Leaderboard.unmount s ∧
    runSteps (Lifecycle.leadDetailMount id tag).steps s = LeadDetail.mount s id tag ∧
    runSteps (Lifecycle.leadDetailRerender id tag).steps s = LeadDetail.rerender s id tag ∧
    runSteps (Lifecycle.leadDetailChangeId old id tag).steps s
      = LeadDetail.changeId s old id tag ∧
    runSteps (Lifecycle.leadDetailUnmount id).steps s = LeadDetail.unmount s id :=
  ⟨rfl, rfl, rfl, rfl, rfl, rfl, rfl, rfl, rfl, rfl, rfl, rfl, rfl⟩

/-- Doing nothing keeps every transport. -/
theorem Keeps.refl (s : SocketService) : Keeps s s :=
  ⟨id, 0, by simp⟩

/-- Keeping composes. -/
theorem Keeps.trans {s s1 s2 : SocketService} (h1 : Keeps s s1) (h2 : Keeps s1 s2) :
    Keeps s s2 := by
  obtain ⟨a1, n1, e1⟩ := h1
  obtain ⟨a2, n2, e2⟩ := h2
  refine ⟨fun h => a2 (a1 h), n1 + n2, ?_⟩
  rw [e2, e1, List.append_assoc, List.replicate_add]

/-- Calling `connect()` closes nothing: it returns at once or adds a pending transport. -/
theorem keeps_connect (s : SocketService) : Keeps s s.connect := by
  unfold SocketService.connect
  split
  · exact Keeps.refl s
  · exact ⟨fun _ => rfl, 1, by simp [SocketService.sockets, Socket.on, io]⟩

/-- Calling `removeAllListeners()` touches handlers only. -/
theorem keeps_removeAllListeners (s : SocketService) : Keeps s s.removeAllListeners := by
  cases hs : s.socket with
  | none => simpa [SocketService.removeAllListeners, hs] using Keeps.refl s
  | some k =>
    exact ⟨fun _ => by simp [SocketService.removeAllListeners, hs], 0,
      by simp [SocketService.removeAllListeners, hs, SocketService.sockets, foldl_off_eq]⟩

/-- The guard `if (!this.socket) this.connect()` closes nothing. -/
theorem keeps_ensureSocket (s : SocketService) : Keeps s s.ensureSocket := by
  unfold SocketService.ensureSocket
  split
  · exact keeps_connect s
  · exact Keeps.refl s

/-- Calling `onScoreUpdate` closes nothing. -/
theorem keeps_onScoreUpdate (s : SocketService) (cb : Callback) :
    Keeps s (s.onScoreUpdate cb) := by
  refine Keeps.trans (keeps_ensureSocket s) ?_
  unfold SocketService.onScoreUpdate
  cases hs : s.ensureSocket.socket with
  | none => simpa [hs] using Keeps.refl _
  | some k => exact ⟨fun _ => by simp [hs], 0, by simp [SocketService.sockets, hs, Socket.on]⟩

/-- Calling `onLeaderboardUpdate` closes nothing. -/
theorem keeps_onLeaderboardUpdate (s : SocketService) (cb : Callback) :
    Keeps s (s.onLeaderboardUpdate cb) := by
  refine Keeps.trans (keeps_ensureSocket s) ?_
  unfold SocketService.onLeaderboardUpdate
  cases hs : s.ensureSocket.socket with
  | none => simpa [hs] using Keeps.refl _
  | some k => exact ⟨fun _ => by simp [hs], 0, by simp [SocketService.sockets, hs, Socket.on]⟩

/-- Calling `joinLead` closes nothing. -/
theorem keeps_joinLead (s : SocketService) (id : String) : Keeps s (s.joinLead id) := by
  refine Keeps.trans (keeps_ensureSocket s) ?_
  unfold SocketService.joinLead
  cases hs : s.ensureSocket.socket with
  | none => simpa [hs] using Keeps.refl _
  | some k =>
    exact ⟨fun _ => by simp [hs], 0, by simp [SocketService.sockets, hs, Socket.emit]⟩

/-- Calling `leaveLead` closes nothing. -/
theorem keeps_leaveLead (s : SocketService) (id : String) : Keeps s (s.leaveLead id) := by
  unfold SocketService.leaveLead
  cases hs : s.socket with
  | none => simpa [hs] using Keeps.refl _
  | some k =>
    exact ⟨fun _ => by simp [hs], 0, by simp [SocketService.sockets, hs, Socket.emit]⟩

/-- No effect body or cleanup closes a transport or clears the handle. -/
theorem keeps_step (st : Step) (s : SocketService) : Keeps s (st.run s) := by
  cases st with
  | useSocketSetup => exact keeps_connect s
  | useSocketCleanup => exact keeps_removeAllListeners s
  | scoreUpdatesSetup cb =>
    cases cb with
    | none => exact Keeps.refl s
    | some c => exact keeps_onScoreUpdate s c
  | scoreUpdatesCleanup => exact keeps_removeAllListeners s
  | leaderboardUpdatesSetup cb =>
    cases cb with
    | none => exact Keeps.refl s
    | some c => exact keeps_onLeaderboardUpdate s c
  | leaderboardUpdatesCleanup => exact keeps_removeAllListeners s
  | roomSetup id =>
    cases id with
    | none => exact Keeps.refl s
    | some v =>
      simp only [Step.run, LeadDetail.roomSetup]
      split
      · exact keeps_joinLead s v
      · exact Keeps.refl s
  | roomCleanup id =>
    cases id with
    | none => exact Keeps.refl s
    | some v =>
      simp only [Step.run, LeadDetail.roomCleanup]
      split
      · exact keeps_leaveLead s v
      · exact Keeps.refl s
  | bindingSetup id tag => exact keeps_onScoreUpdate s _
  | bindingCleanup => exact keeps_removeAllListeners s

/-- No sequence of effect steps closes a transport or clears the handle. -/
theorem keeps_runSteps (steps : List Step) : ∀ s, Keeps s (runSteps steps s) := by
  induction steps with
  | nil => intro s; exact Keeps.refl s
  | cons st t ih =>
    intro s
    exact Keeps.trans (keeps_step st s) (ih (st.run s))

/-- No sequence of mounts, re-renders and unmounts closes a transport. -/
theorem keeps_runLifecycle (evs : List Lifecycle) : ∀ s, Keeps s (runLifecycle evs s) := by
  induction evs with
  | nil => intro s; exact Keeps.refl s
  | cons ev t ih =>
    intro s
    exact Keeps.trans (keeps_runSteps ev.steps s) (ih (runSteps ev.steps s))

/-! ### Trimming -/

/-- When everything left after dropping a leading run satisfies `p`, the whole
list does. -/
theorem all_of_all_dropWhile {α : Type} (p : α → Bool) (l : List α)
    (h : ∀ x ∈ l.dropWhile p, p x = true) : ∀ x ∈ l, p x = true := by
  induction l with
  | nil => intro x hx; cases hx
  | cons a t ih =>
    by_cases ha : p a = true
    · rw [List.dropWhile_cons_of_pos ha] at h
      intro x hx
      rcases List.mem_cons.mp hx with rfl | hx
      · exact ha
      · exact ih h x hx
    · rw [List.dropWhile_cons_of_neg ha] at h
      exact absurd (h a (List.mem_cons_self a t)) ha

/-- Trimming leaves the empty text exactly for a blank text. -/
theorem jsTrim_eq_empty_iff (s : String) : jsTrim s = "" ↔ isBlank s = true := by
  unfold jsTrim isBlank
  rw [String.ext_iff]
  show ((s.toList.dropWhile isJsWhitespace).reverse.dropWhile isJsWhitespace).reverse = [] ↔ _
  rw [List.reverse_eq_nil_iff, List.dropWhile_eq_nil_iff, List.all_eq_true]
  constructor
  · intro h
    apply all_of_all_dropWhile
    intro x hx
    exact h x (List.mem_reverse.mpr hx)
  · intro h x hx
    exact h x ((List.dropWhile_sublist _).subset (List.mem_reverse.mp hx))

/-- After a subscription the map holds the callback under the call's topic. -/
theorem subscribe_listeners_get (s : SocketService) (cb : Callback) :
    mapGet (s.onScoreUpdate cb).listeners Event.scoreUpdated = some cb ∧
    mapGet (s.onLeaderboardUpdate cb).listeners Event.leaderboardUpdated = some cb := by
  cases hs : s.socket with
  | none =>
    simp [SocketService.onScoreUpdate, SocketService.onLeaderboardUpdate,
      SocketService.ensureSocket, SocketService.connect, SocketService.socketConnected,
      hs, mapGet_mapSet_self]
  | some k =>
    simp [SocketService.onScoreUpdate, SocketService.onLeaderboardUpdate,
      SocketService.ensureSocket, hs, mapGet_mapSet_self]

/-! ### Sums and maxima of the stats effect -/

/-- A `reduce` that adds a natural number per element. -/
theorem foldl_add_nat {α : Type} (f : α → Nat) (l : List α) :
    ∀ a : Nat, l.foldl (fun sum x => sum + f x) a = a + (l.map f).sum := by
  induction l with
  | nil => intro a; simp
  | cons h t ih => intro a; simp [List.foldl_cons, ih, Nat.add_assoc]

/-- The fold of `max` is an upper bound of the start value and of every
element, and it is one of them. -/
theorem foldl_max_spec {α : Type} (f : α → Int) (l : List α) :
    ∀ a : Int, a ≤ l.foldl (fun m x => max m (f x)) a ∧
      (∀ x ∈ l, f x ≤ l.foldl (fun m x => max m (f x)) a) ∧
      (l.foldl (fun m x => max m (f x)) a = a ∨
        ∃ x ∈ l, f x = l.foldl (fun m x => max m (f x)) a) := by
  induction l with
  | nil => intro a; simp
  | cons h t ih =>
    intro a
    obtain ⟨h1, h2, h3⟩ := ih (max a (f h))
    simp only [List.foldl_cons]
    refine ⟨le_trans (le_max_left _ _) h1, ?_, ?_⟩
    · intro x hx
      rcases List.mem_cons.mp hx with rfl | hx
      · exact le_trans (le_max_right _ _) h1
      · exact h2 x hx
    · rcases h3 with h3 | ⟨x, hx, hfx⟩
      · rcases max_cases a (f h) with ⟨hm, -⟩ | ⟨hm, -⟩
        · left; rw [h3, hm]
        · right; exact ⟨h, List.mem_cons_self _ _, by rw [h3, hm]⟩
      · right; exact ⟨x, List.mem_cons_of_mem _ hx, hfx⟩

/-- The sum of a list of integers is at most length times an upper bound. -/
theorem sum_le_length_mul (l : List Int) (hi : Int) (h : ∀ x ∈ l, x ≤ hi) :
    l.sum ≤ (l.length : Int) * hi := by
  induction l with
  | nil => simp
  | cons a t ih =>
    have h1 := ih (fun x hx => h x (List.mem_cons_of_mem _ hx))
    have ha := h a (List.mem_cons_self _ _)
    simp only [List.length_cons, List.sum_cons, Nat.cast_add, Nat.cast_one]
    nlinarith

/-- The sum of a list of integers is at least length times a lower bound. -/
theorem length_mul_le_sum (l : List Int) (lo : Int) (h : ∀ x ∈ l, lo ≤ x) :
    (l.length : Int) * lo ≤ l.sum := by
  induction l with
  | nil => simp
  | cons a t ih =>
    have h1 := ih (fun x hx => h x (List.mem_cons_of_mem _ hx))
    have ha := h a (List.mem_cons_self _ _)
    simp only [List.length_cons, List.sum_cons, Nat.cast_add, Nat.cast_one]
    nlinarith

/-- Rounding a quotient that is at least an integer stays at least it. -/
theorem le_nearestHalfUp (num den lo : Int) (hden : 0 < den) (hlo : den * lo ≤ num) :
    lo ≤ nearestHalfUp num den := by
  unfold nearestHalfUp
  have h2 : (0 : Int) < 2 * den := by omega
  apply Int.le_ediv_of_mul_le h2
  nlinarith

/-- Rounding a quotient that is at most an integer stays at most it. -/
theorem nearestHalfUp_le (num den hi : Int) (hden : 0 < den) (hhi : num ≤ den * hi) :
    nearestHalfUp num den ≤ hi := by
  unfold nearestHalfUp
  have h2 : (0 : Int) < 2 * den := by omega
  have : (2 * num + den) / (2 * den) < hi + 1 := by
    apply Int.ediv_lt_of_lt_mul h2
    nlinarith
  omega

/-- The value of `nearestHalfUp` is the integer nearest to the quotient, a half
going up: `avg - 1/2 ≤ num / den < avg + 1/2`. -/
theorem nearestHalfUp_nearest (num den : Int) (hden : 0 < den) :
    2 * den * nearestHalfUp num den ≤ 2 * num + den ∧
    2 * num + den < 2 * den * (nearestHalfUp num den + 1) := by
  unfold nearestHalfUp
  have h2 : (0 : Int) < 2 * den := by omega
  constructor
  · exact Int.mul_ediv_self_le (Int.ne_of_gt h2)
  · have := @Int.lt_mul_ediv_self_add (2 * num + den) (2 * den) h2
    rw [Int.mul_add, Int.mul_one]
    exact this

/-- The absolute value of a sum is at most the sum of the absolute values. -/
theorem natAbs_sum_le {α : Type} (f : α → Int) (l : List α) :
    (l.map f).sum.natAbs ≤ (l.map (fun x => (f x).natAbs)).sum := by
  induction l with
  | nil => simp
  | cons h t ih =>
    simp only [List.map_cons, List.sum_cons]
    have := Int.natAbs_add_le (f h) (t.map f).sum
    omega

/-! ### Double-precision arithmetic -/

/-- Rounding to nearest moves a number by at most a half. -/
theorem roundHalfEven_bounds (x : ℚ) :
    x - 1 / 2 ≤ (roundHalfEven x : ℚ) ∧ (roundHalfEven x : ℚ) ≤ x + 1 / 2 := by
  have h1 := Int.floor_le x
  have h2 := Int.lt_floor_add_one x
  unfold roundHalfEven
  split_ifs with a b c
  · constructor <;> linarith
  · push_cast; constructor <;> linarith
  · constructor <;> linarith
  · push_cast; constructor <;> linarith

/-- An integer rounds to itself. -/
theorem roundHalfEven_intCast (k : ℤ) : roundHalfEven (k : ℚ) = k := by
  unfold roundHalfEven
  simp

/-- Every integer below `2 ^ 53` in absolute value is a double. -/
theorem roundDouble_intCast (z : ℤ) (hz : z.natAbs < 2 ^ 53) :
    roundDouble (z : ℚ) = z := by
  unfold roundDouble
  split_ifs with h0
  · exact h0.symm
  · have hpos : (0 : ℚ) < |(z : ℚ)| := abs_pos.mpr h0
    have hle := Int.zpow_log_le_self (b := 2) (by norm_num) hpos
    have habs : |(z : ℚ)| < 2 ^ (53 : ℤ) := by
      have : ((z.natAbs : ℤ) : ℚ) < ((2 ^ 53 : ℕ) : ℤ) := by exact_mod_cast hz
      rw [Int.natCast_natAbs] at this
      push_cast at this
      exact_mod_cast this
    have he : Int.log 2 |(z : ℚ)| < 53 := by
      have := lt_of_le_of_lt hle habs
      exact (zpow_lt_zpow_iff_right₀ (by norm_num : (1 : ℚ) < 2)).mp (by exact_mod_cast this)
    obtain ⟨k, hk⟩ : ∃ k : ℕ, Int.log 2 |(z : ℚ)| - 52 = -(k : ℤ) :=
      ⟨(52 - Int.log 2 |(z : ℚ)|).toNat, by omega⟩
    rw [hk]
    have hu : (2 : ℚ) ^ (-(k : ℤ)) = 1 / 2 ^ k := by
      rw [zpow_neg, zpow_natCast, one_div]
    rw [hu]
    have hq : (z : ℚ) / (1 / 2 ^ k) = ((z * 2 ^ k : ℤ) : ℚ) := by
      push_cast
      field_simp
    rw [hq, roundHalfEven_intCast]
    push_cast
    field_simp

/-- The rounding of `q` once its binade is known. -/
theorem roundDouble_of_log (q : ℚ) (e : ℤ) (h1 : (2 : ℚ) ^ e ≤ |q|)
    (h2 : |q| < (2 : ℚ) ^ (e + 1)) :
    roundDouble q = (roundHalfEven (q / 2 ^ (e - 52)) : ℚ) * 2 ^ (e - 52) := by
  have hpos : (0 : ℚ) < |q| := lt_of_lt_of_le (by positivity) h1
  have hq : q ≠ 0 := abs_pos.mp hpos
  have hlog : Int.log 2 |q| = e := by
    have a := (Int.zpow_le_iff_le_log (b := 2) (by norm_num) hpos).mp (by exact_mod_cast h1)
    have b := (Int.lt_zpow_iff_log_lt (b := 2) (by norm_num) hpos).mp (by exact_mod_cast h2)
    omega
  unfold roundDouble
  rw [if_neg hq, hlog]

/-- A `reduce` that adds integers in double arithmetic is exact while the
absolute values add up to less than `2 ^ 53`. -/
theorem foldl_roundDouble_add {α : Type} (f : α → ℤ) (l : List α) :
    ∀ a : ℤ, a.natAbs + (l.map (fun x => (f x).natAbs)).sum < 2 ^ 53 →
      l.foldl (fun sum x => roundDouble (sum + (f x : ℚ))) (a : ℚ)
        = ((a + (l.map f).sum : ℤ) : ℚ) := by
  induction l with
  | nil => intro a _; simp
  | cons h t ih =>
    intro a ha
    simp only [List.map_cons, List.sum_cons] at ha
    have hstep : roundDouble ((a : ℚ) + (f h : ℚ)) = ((a + f h : ℤ) : ℚ) := by
      have := roundDouble_intCast (a + f h) (by have := Int.natAbs_add_le a (f h); omega)
      rw [← this]
      push_cast
      rfl
    simp only [List.foldl_cons, hstep, List.map_cons, List.sum_cons]
    rw [ih (a + f h) (by have := Int.natAbs_add_le a (f h); omega)]
    congr 1
    ring

/-- For an integer `S` below `2 ^ 52` in absolute value and a length `n`,
`Math.round` of the double quotient `S / n` is the integer nearest to the exact
quotient, a half going up: the doubles around the quotient are less than `1 / n`
apart, and every half-integer of that size is a double. -/
theorem mathRound_roundDouble_div (S : ℤ) (n : ℕ) (hn : 0 < n) (hS : S.natAbs < 2 ^ 52) :
    mathRound (roundDouble ((S : ℚ) / n)) = nearestHalfUp S n := by
  have hnZ : (0 : ℤ) < n := by exact_mod_cast hn
  have hnQ : (0 : ℚ) < n := by exact_mod_cast hn
  have h2n : (0 : ℤ) < 2 * n := by omega
  obtain ⟨hm1, hm2⟩ := nearestHalfUp_nearest S n hnZ
  generalize nearestHalfUp S n = m at hm1 hm2
  unfold mathRound roundDouble
  split_ifs with h0
  · have hS0 : S = 0 := by
      rcases div_eq_zero_iff.mp h0 with h | h
      · exact_mod_cast h
      · exact absurd h (ne_of_gt hnQ)
    subst hS0
    rw [Int.floor_eq_iff]
    constructor
    · have : m ≤ 0 := by
        by_contra hc
        push_neg at hc
        nlinarith
      have : (m : ℚ) ≤ 0 := by exact_mod_cast this
      linarith
    · have : 0 ≤ m := by
        by_contra hc
        push_neg at hc
        nlinarith
      have : (0 : ℚ) ≤ m := by exact_mod_cast this
      linarith
  · have hpos : (0 : ℚ) < |(S : ℚ) / n| := abs_pos.mpr h0
    have hle := Int.zpow_log_le_self (b := 2) (by norm_num) hpos
    have hSabs : |(S : ℚ)| < 2 ^ (52 : ℤ) := by
      have : ((S.natAbs : ℤ) : ℚ) < ((2 ^ 52 : ℕ) : ℤ) := by exact_mod_cast hS
      rw [Int.natCast_natAbs] at this
      push_cast at this
      exact_mod_cast this
    have hqabs : |(S : ℚ) / n| * n = |(S : ℚ)| := by
      rw [abs_div, abs_of_pos hnQ]
      field_simp
    have hn1 : (1 : ℚ) ≤ n := by exact_mod_cast hn
    have hqle : |(S : ℚ) / n| ≤ |(S : ℚ)| := by
      rw [← hqabs]
      nlinarith [abs_nonneg ((S : ℚ) / n)]
    have he : Int.log 2 |(S : ℚ) / n| < 52 := by
      have := lt_of_le_of_lt (le_trans hle hqle) hSabs
      exact (zpow_lt_zpow_iff_right₀ (by norm_num : (1 : ℚ) < 2)).mp (by exact_mod_cast this)
    obtain ⟨k, hk⟩ : ∃ k : ℕ, Int.log 2 |(S : ℚ) / n| = 51 - (k : ℤ) :=
      ⟨(51 - Int.log 2 |(S : ℚ) / n|).toNat, by omega⟩
    have hk52 : Int.log 2 |(S : ℚ) / n| - 52 = -((k + 1 : ℕ) : ℤ) := by
      rw [hk]; push_cast; ring
    have hu : (2 : ℚ) ^ (-((k + 1 : ℕ) : ℤ)) = 1 / (2 * 2 ^ k) := by
      rw [zpow_neg, zpow_natCast, one_div, pow_succ, mul_comm]
    have hM : (0 : ℚ) < 2 ^ k := by positivity
    have hnN : (n : ℚ) < 2 * 2 ^ k := by
      have h1 : (2 : ℚ) ^ (51 - (k : ℤ)) * n ≤ |(S : ℚ)| := by
        rw [← hqabs, ← hk]
        exact mul_le_mul_of_nonneg_right hle (le_of_lt hnQ)
      have h2 : (2 : ℚ) ^ (51 - (k : ℤ)) = 2 ^ (51 : ℕ) / 2 ^ k := by
        rw [zpow_sub₀ (by norm_num : (2 : ℚ) ≠ 0)]
        norm_cast
      rw [h2] at h1
      have h3 : (2 : ℚ) ^ (51 : ℕ) * n ≤ |(S : ℚ)| * 2 ^ k := by
        have := mul_le_mul_of_nonneg_right h1 (le_of_lt hM)
        have e : (2 : ℚ) ^ (51 : ℕ) / 2 ^ k * n * 2 ^ k = 2 ^ (51 : ℕ) * n := by
          field_simp
        rw [e] at this
        exact this
      have h4 : |(S : ℚ)| * 2 ^ k < 2 ^ (52 : ℤ) * 2 ^ k :=
        mul_lt_mul_of_pos_right hSabs hM
      have h5 : (2 : ℚ) ^ (52 : ℤ) = 2 * 2 ^ (51 : ℕ) := by norm_num
      rw [h5] at h4
      have h6 : (2 : ℚ) ^ (51 : ℕ) * n < 2 ^ (51 : ℕ) * (2 * 2 ^ k) := by linarith
      exact lt_of_mul_lt_mul_left h6 (by positivity)
    rw [hk52, hu]
    obtain ⟨hr1, hr2⟩ := roundHalfEven_bounds ((S : ℚ) / n / (1 / (2 * 2 ^ k)))
    generalize roundHalfEven ((S : ℚ) / n / (1 / (2 * 2 ^ k))) = r at hr1 hr2
    have hx : (S : ℚ) / n / (1 / (2 * 2 ^ k)) = S * (2 * 2 ^ k) / n := by
      field_simp
    rw [hx] at hr1 hr2
    have a1 : 2 * (S : ℤ) * (2 * 2 ^ k) - n ≤ 2 * n * r := by
      have : (2 * (S : ℚ) * (2 * 2 ^ k) - n) ≤ 2 * n * r := by
        have : (S : ℚ) * (2 * 2 ^ k) / n * n = S * (2 * 2 ^ k) := by field_simp
        nlinarith
      exact_mod_cast this
    have a2 : 2 * (n : ℤ) * r ≤ 2 * S * (2 * 2 ^ k) + n := by
      have : 2 * (n : ℚ) * r ≤ 2 * (S : ℚ) * (2 * 2 ^ k) + n := by
        have : (S : ℚ) * (2 * 2 ^ k) / n * n = S * (2 * 2 ^ k) := by field_simp
        nlinarith
      exact_mod_cast this
    have hnNZ : (n : ℤ) + 1 ≤ 2 * 2 ^ k := by
      have : (n : ℤ) < 2 * 2 ^ k := by exact_mod_cast hnN
      omega
    have hMZ : (0 : ℤ) < 2 ^ k := by positivity
    have lo : m * (2 * 2 ^ k) - 2 ^ k ≤ r := by
      have p1 : 2 * (n : ℤ) * m * (2 * 2 ^ k) ≤ (2 * S + n) * (2 * 2 ^ k) :=
        mul_le_mul_of_nonneg_right hm1 (by positivity)
      have : 2 * (n : ℤ) * (m * (2 * 2 ^ k) - 2 ^ k - 1) < 2 * n * r := by nlinarith
      have := lt_of_mul_lt_mul_left this (le_of_lt h2n)
      omega
    have hi : r < m * (2 * 2 ^ k) + 2 ^ k := by
      have p1 : (2 * S + n + 1) * (2 * 2 ^ k) ≤ 2 * (n : ℤ) * (m + 1) * (2 * 2 ^ k) :=
        mul_le_mul_of_nonneg_right (by omega) (by positivity)
      have : 2 * (n : ℤ) * r < 2 * n * (m * (2 * 2 ^ k) + 2 ^ k) := by nlinarith
      exact lt_of_mul_lt_mul_left this (le_of_lt h2n)
    have loQ : (m : ℚ) * (2 * 2 ^ k) - 2 ^ k ≤ r := by exact_mod_cast lo
    have hiQ : (r : ℚ) < m * (2 * 2 ^ k) + 2 ^ k := by exact_mod_cast hi
    rw [Int.floor_eq_iff]
    constructor
    · rw [mul_one_div, ← sub_le_iff_le_add, le_div_iff₀ (by positivity)]
      linarith
    · rw [mul_one_div, ← lt_sub_iff_add_lt, div_lt_iff₀ (by positivity)]
      linarith

/-- The double quotient of the scores `2 ^ 51`, `2 ^ 51` and `2 ^ 51 + 1` by 3:
the exact quotient `2 ^ 51 + 1/3` lies between the doubles `2 ^ 51` and
`2 ^ 51 + 1/2`, nearer to the second, which `Math.round` takes up. -/
theorem mathRound_roundDouble_example :
    mathRound (roundDouble (((6755399441055745 : ℤ) : ℚ) / ((3 : ℕ) : ℚ)))
      = 2251799813685249 := by
  have hq : ((6755399441055745 : ℤ) : ℚ) / ((3 : ℕ) : ℚ) = 6755399441055745 / 3 := by
    norm_num
  rw [hq, roundDouble_of_log (6755399441055745 / 3) 51 (by norm_num [abs_of_pos])
    (by norm_num [abs_of_pos])]
  have hx : (6755399441055745 / 3 : ℚ) / 2 ^ ((51 : ℤ) - 52) = 13510798882111490 / 3 := by
    norm_num
  have hu : (2 : ℚ) ^ ((51 : ℤ) - 52) = 1 / 2 := by norm_num
  have hf : ⌊(13510798882111490 / 3 : ℚ)⌋ = 4503599627370496 := by
    rw [Int.floor_eq_iff]
    norm_num
  have hr : roundHalfEven (13510798882111490 / 3) = 4503599627370497 := by
    unfold roundHalfEven
    rw [hf]
    norm_num
  rw [hx, hu, hr]
  unfold mathRound
  rw [Int.floor_eq_iff]
  norm_num

/-- While the absolute values of the scores add up to less than `2 ^ 53` the
sum of the stats effect is exact, and `averageScore` is `Math.round` of the
double quotient of the exact sum by the length. -/
theorem statsEffect_averageScore {E : Type} (first : DashboardLead E)
    (rest : List (DashboardLead E)) (stats : Stats)
    (h : ((first :: rest).map (fun lead => lead.currentScore.val.natAbs)).sum < 2 ^ 53) :
    (Dashboard.statsEffect (first :: rest) stats).averageScore
      = mathRound (roundDouble
          (((((first :: rest).map (fun lead => lead.currentScore.val)).sum : ℤ) : ℚ)
            / (((first :: rest).length : ℕ) : ℚ))) := by
  have hf := foldl_roundDouble_add (fun lead : DashboardLead E => lead.currentScore.val)
    (first :: rest) 0 (by simpa using h)
  simp only [Int.cast_zero, zero_add] at hf
  show mathRound (roundDouble
    ((first :: rest).foldl (fun sum lead => roundDouble (sum + (lead.currentScore.val : ℚ)))
      0 / (((first :: rest).length : ℕ) : ℚ))) = _
  rw [hf]

/-! ### CSV quoting -/

/-- Reading back a body made of the escaped text and the closing quote gives
the text. -/
theorem csvUnquoteBody_escapeQuotes (v : List Char) :
    csvUnquoteBody (escapeQuotes v ++ [dquote]) = some v := by
  induction v with
  | nil => simp [escapeQuotes, csvUnquoteBody]
  | cons c rest ih =>
    by_cases hc : c = dquote
    · subst hc
      simp [escapeQuotes, csvUnquoteBody, ih]
    · simp only [escapeQuotes, hc, if_false, List.cons_append]
      rw [csvUnquoteBody.eq_def]
      simp [hc, ih]

/-- A falsy value is written as the empty text by `value || ''`. -/
theorem orEmpty_joinText_of_falsy (v : CellValue) (h : v.truthy = false) :
    v.orEmpty.joinText = "" := by
  simp [CellValue.orEmpty, h, CellValue.joinText]

/-- A property the row does not have reads as `undefined`. -/
theorem rowGet_absent (row : Row) (header : String) (h : ∀ p ∈ row, p.1 ≠ header) :
    rowGet row header = CellValue.undefined := by
  unfold rowGet
  have : row.find? (fun p => p.1 == header) = none := by
    rw [List.find?_eq_none]
    intro p hp
    simpa using h p hp
  rw [this]

/-! ## Properties of the service and the screens -/

/-- C1 (evaluation at the failing input): on a new service, `connect()`
followed by `connect()` before the handshake of the first socket completes
creates two sockets. The first one is no longer referenced by the service,
was never closed, and connects on its own. -/
theorem connect_twice_before_handshake_creates_two_sockets :
    SocketService.new.connect.sockets.length = 1 ∧
    SocketService.new.connect.socketConnected = false ∧
    SocketService.new.connect.connect.sockets.length = 2 ∧
    SocketService.new.connect.connect.orphans =
      (SocketService.new.connect.socket).toList ∧
    (SocketService.new.connect.connect.handshakeAll.sockets.map Socket.connected)
      = [true, true] := by
  decide

/-- C2 (evaluation at the failing input): on a connected service,
`onScoreUpdate(cb1)` followed by `onScoreUpdate(cb2)` leaves only `cb2` in the
`listeners` map, but both handlers stay attached to the socket, and a
`score-updated` event invokes `cb1` and then `cb2`. -/
theorem second_registration_leaves_first_attached :
    ((SocketService.online.onScoreUpdate (Callback.other 1)).onScoreUpdate
        (Callback.other 2)).listeners
      = [(Event.scoreUpdated, Callback.other 2)] ∧
    ((SocketService.online.onScoreUpdate (Callback.other 1)).onScoreUpdate
        (Callback.other 2)).push Event.scoreUpdated
      = [Callback.other 1, Callback.other 2] := by
  decide

/-- C3 (evaluation at the failing input): on a connected service,
`onScoreUpdate(cb1); onScoreUpdate(cb2); removeAllListeners()` detaches only
`cb2`, the callback the map tracks; a later `score-updated` event still
invokes `cb1`. -/
theorem removeAllListeners_misses_superseded_callback :
    (((SocketService.online.onScoreUpdate (Callback.other 1)).onScoreUpdate
        (Callback.other 2)).removeAllListeners).listeners = [] ∧
    (((SocketService.online.onScoreUpdate (Callback.other 1)).onScoreUpdate
        (Callback.other 2)).removeAllListeners).push Event.scoreUpdated
      = [Callback.other 1] := by
  decide

/-- C4 (counterexample): after `onScoreUpdate(cb); disconnect()` the handle is
null, and `removeAllListeners()` then leaves the map non-empty. -/
theorem removeAllListeners_keeps_map_without_socket :
    ((SocketService.new.onScoreUpdate (Callback.other 1)).disconnect).socket = none ∧
    ((SocketService.new.onScoreUpdate
        (Callback.other 1)).disconnect).removeAllListeners.listeners ≠ [] := by
  decide

/-- C4 (amended): with a null handle `removeAllListeners()` changes nothing.
With a socket, the map is empty afterwards, status, emitted signals and the
other sockets are untouched, every tracked pair loses one attachment on the
current socket (all topics in the one call), and so a tracked pair that was
attached at most once is no longer attached. -/
theorem removeAllListeners_effect (s : SocketService) :
    (s.socket = none → s.removeAllListeners = s) ∧
    (∀ k, s.socket = some k →
      s.removeAllListeners.listeners = [] ∧
      s.removeAllListeners.orphans = s.orphans ∧
      ∃ k1, s.removeAllListeners.socket = some k1 ∧
        k1.status = k.status ∧ k1.emitted = k.emitted ∧
        (∀ h, k1.handlers.count h = k.handlers.count h - s.listeners.count h) ∧
        (∀ h ∈ s.listeners, k.handlers.count h ≤ 1 → h ∉ k1.handlers)) := by
  constructor
  · intro hs
    simp [SocketService.removeAllListeners, hs]
  · intro k hs
    refine ⟨by simp [SocketService.removeAllListeners, hs],
      by simp [SocketService.removeAllListeners, hs],
      { k with handlers := k.handlers.diff s.listeners }, ?_, rfl, rfl, ?_, ?_⟩
    · simp [SocketService.removeAllListeners, hs, foldl_off_eq]
    · intro h
      simpa using count_diff_eq h s.listeners k.handlers
    · intro h hmem hle
      have hc : 0 < s.listeners.count h := List.count_pos_iff.mpr hmem
      have := count_diff_eq h s.listeners k.handlers
      apply List.count_eq_zero.mp
      show (k.handlers.diff s.listeners).count h = 0
      omega

/-- C4 (witness): a connected service tracking one callback per topic, and
the service left by `onScoreUpdate(cb); disconnect()`. -/
theorem removeAllListeners_effect_witness :
    ((SocketService.online.onScoreUpdate (Callback.other 1)).onLeaderboardUpdate
      (Callback.other 2)).removeAllListeners.listeners = [] ∧
    ((SocketService.new.onScoreUpdate (Callback.other 1)).disconnect).removeAllListeners
      = (SocketService.new.onScoreUpdate (Callback.other 1)).disconnect :=
  ⟨((removeAllListeners_effect
      ((SocketService.online.onScoreUpdate (Callback.other 1)).onLeaderboardUpdate
        (Callback.other 2))).2 _ rfl).1,
   (removeAllListeners_effect
      ((SocketService.new.onScoreUpdate (Callback.other 1)).disconnect)).1 rfl⟩

/-- C5 (evaluation at the failing input): a Dashboard mounted on a new service
and then unmounted. The second `useSocket` effect replaced the first socket
before its handshake completed, so the `score-updated` callback sits on a
socket the cleanups never reach: it is still attached after unmount and a later
event invokes it. Leads and Leaderboard, with a single `useSocket`, leave
nothing behind from the same state. -/
theorem dashboard_unmount_leaves_score_callback :
    (Dashboard.unmount (Dashboard.mount SocketService.new 0)).listeners = [] ∧
    (Dashboard.unmount (Dashboard.mount SocketService.new 0)).handshakeAll.push
        Event.scoreUpdated = [Callback.dashboardScore 0] ∧
    (Dashboard.unmount
        (Dashboard.rerenders (Dashboard.mount SocketService.new 0) 1 2)).handshakeAll.push
        Event.scoreUpdated = [Callback.dashboardScore 0] ∧
    (Leads.unmount (Leads.mount SocketService.new 1 "" 0)).handshakeAll.push
        Event.scoreUpdated = [] ∧
    (Leaderboard.unmount (Leaderboard.mount SocketService.new 0)).handshakeAll.push
        Event.leaderboardUpdated = [] := by
  decide

/-- C6 (evaluation at the failing input): a Dashboard mounted on a new
service, both sockets complete their handshake, the Dashboard re-renders once,
and the server broadcasts one `score-updated` event. The callback of the first
render (on the replaced socket) and the callback of the second render both run:
`fetchLeads` and `fetchLeaderboard` are each called twice. Without the
re-render each is called once. -/
theorem dashboard_score_event_refetches_twice :
    (Dashboard.rerender (Dashboard.mount SocketService.new 0).handshakeAll 1).pushCalls
        Event.scoreUpdated (Payload.object (JsValue.string "a"))
      = [Call.fetchLeads 1 5 "", Call.fetchLeaderboard 5,
         Call.fetchLeads 1 5 "", Call.fetchLeaderboard 5] ∧
    (Dashboard.mount SocketService.new 0).handshakeAll.pushCalls
        Event.scoreUpdated (Payload.object (JsValue.string "a"))
      = [Call.fetchLeads 1 5 "", Call.fetchLeaderboard 5] := by
  decide

/-- C7: LeadDetail is mounted for a non-empty lead id `a` and the id then
changes to a different non-empty id `b` without an unmount. On the socket held
since mount exactly the signals join-lead `a`, leave-lead `a`, join-lead `b`
are emitted, in that order, so a socket that was in no room is in room `b`
only; the only handler this leaves attached that was not attached before the
mount is the one closed over `b`, which makes no call on an event whose leadId
is `a`; so with no other `score-updated` handler around, such an event
triggers no re-fetch. -/
theorem leadDetail_id_change_room_membership (s : SocketService) (a b : String)
    (ta tb : Nat) (ha : a ≠ "") (hb : b ≠ "") (hab : a ≠ b) :
    (LeadDetail.changeId (LeadDetail.mount s (some a) ta) (some a) (some b) tb).emitted
      = s.connect.emitted ++ [Signal.joinLead a, Signal.leaveLead a, Signal.joinLead b] ∧
    (rooms s.connect.emitted = [] →
      rooms (LeadDetail.changeId (LeadDetail.mount s (some a) ta) (some a) (some b)
        tb).emitted = [b]) ∧
    (∀ cb, (LeadDetail.changeId (LeadDetail.mount s (some a) ta) (some a) (some b)
        tb).attached Event.scoreUpdated cb →
      s.attached Event.scoreUpdated cb ∨ cb = Callback.handleScoreUpdate (some b) tb) ∧
    (Callback.handleScoreUpdate (some b) tb).run (Payload.object (JsValue.string a)) = [] ∧
    ((∀ cb, ¬ s.attached Event.scoreUpdated cb) →
      (LeadDetail.changeId (LeadDetail.mount s (some a) ta) (some a) (some b)
        tb).handshakeAll.pushCalls Event.scoreUpdated
          (Payload.object (JsValue.string a)) = []) := by
  have hrun : (Callback.handleScoreUpdate (some b) tb).run
      (Payload.object (JsValue.string a)) = [] := by
    simp [Callback.run, LeadDetail.handleScoreUpdate, strictEq, hab]
  have hem : (LeadDetail.changeId (LeadDetail.mount s (some a) ta) (some a) (some b)
      tb).emitted
      = s.connect.emitted ++ [Signal.joinLead a, Signal.leaveLead a, Signal.joinLead b] := by
    obtain ⟨k0, h0, hc⟩ := changeId_shape s a b ta tb ha hb
    rw [hc]
    simp [SocketService.emitted, h0]
  refine ⟨hem, ?_, fun cb h => changeId_attached s a b ta tb ha hb cb h, hrun, ?_⟩
  · intro hr
    rw [hem]
    unfold rooms at hr ⊢
    rw [List.foldl_append, hr]
    simp [hab]
  · intro hfree
    unfold SocketService.pushCalls
    rw [List.flatten_eq_nil_iff]
    intro l hl
    simp only [List.mem_map] at hl
    obtain ⟨k, hk, rfl⟩ := hl
    apply dispatchCalls_eq_nil
    intro cb hcb
    have hat := attached_handshakeAll _ _ _
      (attached_of_mem_push _ _ _ (mem_push_of_mem_receive _ _ _ _ hk hcb))
    rcases changeId_attached s a b ta tb ha hb cb hat with h1 | h1
    · exact absurd h1 (hfree cb)
    · rw [h1]
      exact hrun

/-- C7 (witness): lead `"a"` then lead `"b"` on a new service. -/
theorem leadDetail_id_change_room_membership_witness :
    (LeadDetail.changeId (LeadDetail.mount SocketService.new (some "a") 0) (some "a")
        (some "b") 1).emitted
      = SocketService.new.connect.emitted ++
        [Signal.joinLead "a", Signal.leaveLead "a", Signal.joinLead "b"] ∧
    rooms (LeadDetail.changeId (LeadDetail.mount SocketService.new (some "a") 0)
        (some "a") (some "b") 1).emitted = ["b"] ∧
    (LeadDetail.changeId (LeadDetail.mount SocketService.new (some "a") 0) (some "a")
        (some "b") 1).handshakeAll.pushCalls Event.scoreUpdated
          (Payload.object (JsValue.string "a")) = [] :=
  ⟨(leadDetail_id_change_room_membership SocketService.new "a" "b" 0 1
      (by decide) (by decide) (by decide)).1,
   (leadDetail_id_change_room_membership SocketService.new "a" "b" 0 1
      (by decide) (by decide) (by decide)).2.1 (by decide),
   (leadDetail_id_change_room_membership SocketService.new "a" "b" 0 1
      (by decide) (by decide) (by decide)).2.2.2.2 new_not_attached⟩

/-- C8: LeadDetail mounted for a non-empty lead `id`, from any state of the
service. The mount registers one handler, `handleScoreUpdate` closed over `id`,
after the handlers already there. A `score-updated` event whose payload has
`leadId === id` makes it call `refetch` (the lead record) and
`fetchScoreHistory`, which issue the two requests, on top of whatever the event
triggered before the mount; an event with any other payload makes it call
nothing, so the screen adds no call to what the event triggered before the
mount. With no other `score-updated` handler around these are the only calls of
the broadcast. -/
theorem leadDetail_score_event_refetch (s : SocketService) (id : String) (tag : Nat)
    (data : Payload) (hid : id ≠ "") :
    (LeadDetail.mount s (some id) tag).handshakeAll.push Event.scoreUpdated
      = s.handshakeAll.push Event.scoreUpdated
        ++ [Callback.handleScoreUpdate (some id) tag] ∧
    (data = Payload.object (JsValue.string id) →
      (Callback.handleScoreUpdate (some id) tag).run data
        = [Call.fetchLead (some id), Call.fetchScoreHistory (some id)]) ∧
    (data ≠ Payload.object (JsValue.string id) →
      (Callback.handleScoreUpdate (some id) tag).run data = []) ∧
    (data = Payload.object (JsValue.string id) →
      (LeadDetail.mount s (some id) tag).handshakeAll.pushCalls Event.scoreUpdated data
        = s.handshakeAll.pushCalls Event.scoreUpdated data
          ++ [Call.fetchLead (some id), Call.fetchScoreHistory (some id)]) ∧
    (data ≠ Payload.object (JsValue.string id) →
      (LeadDetail.mount s (some id) tag).handshakeAll.pushCalls Event.scoreUpdated data
        = s.handshakeAll.pushCalls Event.scoreUpdated data) ∧
    ((∀ cb, ¬ s.attached Event.scoreUpdated cb) →
      data = Payload.object (JsValue.string id) →
      (LeadDetail.mount s (some id) tag).handshakeAll.pushCalls Event.scoreUpdated data
        = [Call.fetchLead (some id), Call.fetchScoreHistory (some id)]) ∧
    ((∀ cb, ¬ s.attached Event.scoreUpdated cb) →
      data ≠ Payload.object (JsValue.string id) →
      (LeadDetail.mount s (some id) tag).handshakeAll.pushCalls Event.scoreUpdated data
        = []) ∧
    (Call.fetchLead (some id)).requests = [Request.getLeadById id] ∧
    (Call.fetchScoreHistory (some id)).requests
      = [Request.getScoreHistory (some id) 1 50] := by
  obtain ⟨hpush, hcalls⟩ := mount_push s id tag data hid
  obtain ⟨hmatch, hother⟩ := handleScoreUpdate_run id tag data
  refine ⟨hpush, hmatch, hother, ?_, ?_, ?_, ?_, ?_, ?_⟩
  · intro hd
    rw [hcalls, hmatch hd]
  · intro hd
    rw [hcalls, hother hd, List.append_nil]
  · intro hfree hd
    rw [hcalls, hmatch hd, pushCalls_eq_nil_of_free s data hfree, List.nil_append]
  · intro hfree hd
    rw [hcalls, hother hd, pushCalls_eq_nil_of_free s data hfree, List.append_nil]
  · simp [Call.requests, hid]
  · rfl

/-- C8 (witness): the spec's scenario, lead `"user@example.com"` and an event
for another lead, on a new service; and the same screen reached after a visit
to the Dashboard, where an event for another lead triggers what it triggered
before the mount, the calls of the handler the Dashboard left behind, and
nothing else. -/
theorem leadDetail_score_event_refetch_witness :
    (LeadDetail.mount SocketService.new (some "user@example.com")
        0).handshakeAll.pushCalls Event.scoreUpdated
        (Payload.object (JsValue.string "user@example.com"))
      = [Call.fetchLead (some "user@example.com"),
         Call.fetchScoreHistory (some "user@example.com")] ∧
    (LeadDetail.mount SocketService.new (some "user@example.com")
        0).handshakeAll.pushCalls Event.scoreUpdated
        (Payload.object (JsValue.string "other@example.com")) = [] ∧
    (LeadDetail.mount (Dashboard.unmount (Dashboard.mount SocketService.new 0))
        (some "user@example.com") 1).handshakeAll.pushCalls Event.scoreUpdated
        (Payload.object (JsValue.string "other@example.com"))
      = (Dashboard.unmount (Dashboard.mount SocketService.new 0)).handshakeAll.pushCalls
          Event.scoreUpdated (Payload.object (JsValue.string "other@example.com")) ∧
    (Dashboard.unmount (Dashboard.mount SocketService.new 0)).handshakeAll.pushCalls
        Event.scoreUpdated (Payload.object (JsValue.string "other@example.com"))
      = (Callback.dashboardScore 0).run
          (Payload.object (JsValue.string "other@example.com")) :=
  ⟨(leadDetail_score_event_refetch SocketService.new "user@example.com" 0
      (Payload.object (JsValue.string "user@example.com")) (by decide)).2.2.2.2.2.1
      new_not_attached rfl,
   (leadDetail_score_event_refetch SocketService.new "user@example.com" 0
      (Payload.object (JsValue.string "other@example.com")) (by decide)).2.2.2.2.2.2.1
      new_not_attached (by decide),
   (leadDetail_score_event_refetch (Dashboard.unmount (Dashboard.mount SocketService.new 0))
      "user@example.com" 1
      (Payload.object (JsValue.string "other@example.com")) (by decide)).2.2.2.2.1
      (by decide),
   by decide⟩

/-- C9 (counterexample): LeadDetail mounted for lead `"a"` on a new service
receives a `score-updated` event for `"a"`: `fetchEvents` is not among the
calls made. -/
theorem leadDetail_score_event_skips_fetchEvents :
    Call.fetchEvents (some "a") ∉
      (LeadDetail.mount SocketService.new (some "a") 0).handshakeAll.pushCalls
        Event.scoreUpdated (Payload.object (JsValue.string "a")) := by
  decide

/-- C9 (amended): on the LeadDetail screen for a non-empty lead `id`, from any
state of the service. For every payload `handleScoreUpdate` never calls
`fetchEvents`; an event whose leadId equals `id` makes it call `refetch` and
`fetchScoreHistory`, in that order, and these are the calls the mounted screen
adds to the broadcast. The event list is fetched by the room effect: the
effects of a mount, and of a change of the route parameter from `old` to `id`,
leave the state of `LeadDetail.mount`, of `LeadDetail.changeId`, and call
`fetchScoreHistory` and `fetchEvents` once each; the effects of a re-render and
of an unmount call neither. -/
theorem handleScoreUpdate_calls (s : SocketService) (old : Option String) (id : String)
    (tag : Nat) (data : Payload) (hid : id ≠ "") :
    (∀ x, Call.fetchEvents x ∉ (Callback.handleScoreUpdate (some id) tag).run data) ∧
    (Callback.handleScoreUpdate (some id) tag).run (Payload.object (JsValue.string id))
      = [Call.fetchLead (some id), Call.fetchScoreHistory (some id)] ∧
    (LeadDetail.mount s (some id) tag).handshakeAll.pushCalls Event.scoreUpdated
        (Payload.object (JsValue.string id))
      = s.handshakeAll.pushCalls Event.scoreUpdated (Payload.object (JsValue.string id))
        ++ [Call.fetchLead (some id), Call.fetchScoreHistory (some id)] ∧
    runEffects (Lifecycle.leadDetailMount (some id) tag).steps s
      = (LeadDetail.mount s (some id) tag,
         [Call.fetchScoreHistory (some id), Call.fetchEvents (some id)]) ∧
    runEffects (Lifecycle.leadDetailChangeId old (some id) tag).steps s
      = (LeadDetail.changeId s old (some id) tag,
         [Call.fetchScoreHistory (some id), Call.fetchEvents (some id)]) ∧
    runEffects (Lifecycle.leadDetailRerender (some id) tag).steps s
      = (LeadDetail.rerender s (some id) tag, []) ∧
    runEffects (Lifecycle.leadDetailUnmount (some id)).steps s
      = (LeadDetail.unmount s (some id), []) := by
  have hroom : LeadDetail.roomSetupCalls (some id)
      = [Call.fetchScoreHistory (some id), Call.fetchEvents (some id)] := by
    simp [LeadDetail.roomSetupCalls, truthy, hid]
  refine ⟨?_, ?_, ?_, ?_, ?_, ?_, ?_⟩
  · intro x
    simp only [Callback.run, LeadDetail.handleScoreUpdate]
    cases data with
    | nullish => simp
    | object v => split <;> simp
  · exact (handleScoreUpdate_run id tag _).1 rfl
  · rw [(mount_push s id tag _ hid).2, (handleScoreUpdate_run id tag _).1 rfl]
  · simp only [runEffects, Lifecycle.steps, List.foldl_cons, List.foldl_nil, Step.calls,
      hroom, List.nil_append, List.append_nil]
    rfl
  · simp only [runEffects, Lifecycle.steps, List.foldl_cons, List.foldl_nil, Step.calls,
      hroom, List.nil_append, List.append_nil]
    rfl
  · rfl
  · rfl

/-- C9 (witness): lead `"a"` mounted on a new service, and the route parameter
changing from `"b"` to `"a"`. -/
theorem handleScoreUpdate_calls_witness :
    runEffects (Lifecycle.leadDetailMount (some "a") 0).steps SocketService.new
      = (LeadDetail.mount SocketService.new (some "a") 0,
         [Call.fetchScoreHistory (some "a"), Call.fetchEvents (some "a")]) ∧
    runEffects (Lifecycle.leadDetailChangeId (some "b") (some "a") 1).steps
        (LeadDetail.mount SocketService.new (some "b") 0)
      = (LeadDetail.changeId (LeadDetail.mount SocketService.new (some "b") 0) (some "b")
          (some "a") 1,
         [Call.fetchScoreHistory (some "a"), Call.fetchEvents (some "a")]) :=
  ⟨(handleScoreUpdate_calls SocketService.new none "a" 0 Payload.nullish
      (by decide)).2.2.2.1,
   (handleScoreUpdate_calls (LeadDetail.mount SocketService.new (some "b") 0) (some "b")
      "a" 1 Payload.nullish (by decide)).2.2.2.2.1⟩

/-- C10: when the service holds a connected socket, `connect()` returns the
state unchanged: same handle, same handlers on it, same `listeners` map, and no
socket created. -/
theorem connect_noop_when_connected (s : SocketService) (k : Socket)
    (hs : s.socket = some k) (hk : k.connected = true) :
    s.connect = s ∧ s.connect.socket = some k ∧
    s.connect.listeners = s.listeners ∧ s.connect.sockets = s.sockets := by
  have h : s.connect = s := by
    simp [SocketService.connect, SocketService.socketConnected, hs, hk]
  rw [h]
  exact ⟨rfl, hs, rfl, rfl⟩

/-- C10 (witness): the connected service with two bound callbacks. -/
theorem connect_noop_when_connected_witness :
    ((SocketService.online.onScoreUpdate (Callback.other 1)).onLeaderboardUpdate
      (Callback.other 2)).connect
    = (SocketService.online.onScoreUpdate (Callback.other 1)).onLeaderboardUpdate
      (Callback.other 2) :=
  (connect_noop_when_connected
    ((SocketService.online.onScoreUpdate (Callback.other 1)).onLeaderboardUpdate
      (Callback.other 2)) _ rfl (by decide)).1

/-- C11: after `disconnect()` the handle is null; with a null handle
`disconnect()` returns the state unchanged (the function is total, nothing is
raised); so two calls in a row give the same state as one. -/
theorem disconnect_clears_handle (s : SocketService) :
    s.disconnect.socket = none ∧
    (s.socket = none → s.disconnect = s) ∧
    s.disconnect.disconnect = s.disconnect := by
  cases hs : s.socket with
  | none => simp [SocketService.disconnect, hs]
  | some k => simp [SocketService.disconnect, hs]

/-- C11 (witness): the new service has a null handle. -/
theorem disconnect_clears_handle_witness :
    SocketService.new.disconnect = SocketService.new :=
  (disconnect_clears_handle SocketService.new).2.1 rfl

/-- C12: `onScoreUpdate(cb)` and `onLeaderboardUpdate(cb)` in any state. With
a null handle a socket is created first (the one `connect()` creates) and `cb`
is attached to it; with a socket held, `cb` is attached to that socket and no
socket is created. Afterwards the handle is non-null, `cb` is attached to the
held socket under the call's topic, the map holds `cb` under that topic, and
the entry of the other topic is as before. -/
theorem subscribe_binds_callback (s : SocketService) (cb : Callback) :
    ((∃ k, (s.onScoreUpdate cb).socket = some k ∧
        (Event.scoreUpdated, cb) ∈ k.handlers) ∧
      mapGet (s.onScoreUpdate cb).listeners Event.scoreUpdated = some cb ∧
      mapGet (s.onScoreUpdate cb).listeners Event.leaderboardUpdated
        = mapGet s.listeners Event.leaderboardUpdated ∧
      (s.socket = none →
        (s.onScoreUpdate cb).socket
          = SocketService.new.connect.socket.map (fun k => k.on Event.scoreUpdated cb) ∧
        (s.onScoreUpdate cb).sockets.length = s.sockets.length + 1) ∧
      (∀ k, s.socket = some k →
        (s.onScoreUpdate cb).socket = some (k.on Event.scoreUpdated cb) ∧
        (s.onScoreUpdate cb).orphans = s.orphans)) ∧
    ((∃ k, (s.onLeaderboardUpdate cb).socket = some k ∧
        (Event.leaderboardUpdated, cb) ∈ k.handlers) ∧
      mapGet (s.onLeaderboardUpdate cb).listeners Event.leaderboardUpdated = some cb ∧
      mapGet (s.onLeaderboardUpdate cb).listeners Event.scoreUpdated
        = mapGet s.listeners Event.scoreUpdated ∧
      (s.socket = none →
        (s.onLeaderboardUpdate cb).socket
          = SocketService.new.connect.socket.map
            (fun k => k.on Event.leaderboardUpdated cb) ∧
        (s.onLeaderboardUpdate cb).sockets.length = s.sockets.length + 1) ∧
      (∀ k, s.socket = some k →
        (s.onLeaderboardUpdate cb).socket = some (k.on Event.leaderboardUpdated cb) ∧
        (s.onLeaderboardUpdate cb).orphans = s.orphans)) := by
  cases hs : s.socket with
  | none =>
    simp [SocketService.onScoreUpdate, SocketService.onLeaderboardUpdate,
      SocketService.ensureSocket, SocketService.connect, SocketService.socketConnected,
      SocketService.sockets, SocketService.new, hs, Socket.on, mapGet_mapSet_self,
      mapGet_mapSet_ne]
  | some k =>
    simp [SocketService.onScoreUpdate, SocketService.onLeaderboardUpdate,
      SocketService.ensureSocket, hs, Socket.on, mapGet_mapSet_self, mapGet_mapSet_ne]

/-- C12 (witness): the first subscription on a new service, and a second
topic on the socket it created. -/
theorem subscribe_binds_callback_witness :
    (SocketService.new.onScoreUpdate (Callback.other 1)).sockets.length = 1 ∧
    ((SocketService.new.onScoreUpdate (Callback.other 1)).onLeaderboardUpdate
        (Callback.other 2)).orphans
      = (SocketService.new.onScoreUpdate (Callback.other 1)).orphans :=
  ⟨((subscribe_binds_callback SocketService.new (Callback.other 1)).1.2.2.2.1 rfl).2,
   ((subscribe_binds_callback (SocketService.new.onScoreUpdate (Callback.other 1))
      (Callback.other 2)).2.2.2.2.2 _ rfl).2⟩

/-- C13: `joinLead(id)` in any state appends exactly the signal join-lead
`id` to what the held socket has emitted (a null handle has emitted nothing and
gets a socket first); no other socket, no handler and no map entry changes and
no leave-lead is emitted, so `joinLead(a); joinLead(b)` emits join-lead `a`,
join-lead `b` and nothing else. -/
theorem joinLead_emits_one_signal (s : SocketService) (a b : String) :
    (s.joinLead a).emitted = s.emitted ++ [Signal.joinLead a] ∧
    ((s.joinLead a).joinLead b).emitted
      = s.emitted ++ [Signal.joinLead a, Signal.joinLead b] ∧
    (s.joinLead a).listeners = s.listeners ∧
    (s.joinLead a).orphans = s.orphans ∧
    (s.socket = none →
      (s.joinLead a).socket
        = SocketService.new.connect.socket.map
          (fun k => k.emit (Signal.joinLead a))) ∧
    (∀ k, s.socket = some k →
      (s.joinLead a).socket = some (k.emit (Signal.joinLead a))) := by
  cases hs : s.socket with
  | none =>
    simp [SocketService.joinLead, SocketService.ensureSocket, SocketService.connect,
      SocketService.socketConnected, SocketService.emitted, SocketService.new, hs,
      Socket.emit, Socket.on, io]
  | some k =>
    simp [SocketService.joinLead, SocketService.ensureSocket, SocketService.emitted, hs,
      Socket.emit]

/-- C13 (witness): two joins on a new service, and a join on a held socket. -/
theorem joinLead_emits_one_signal_witness :
    (SocketService.new.joinLead "a").socket
      = SocketService.new.connect.socket.map (fun k => k.emit (Signal.joinLead "a")) ∧
    (SocketService.online.joinLead "a").socket
      = SocketService.online.socket.map (fun k => k.emit (Signal.joinLead "a")) :=
  ⟨(joinLead_emits_one_signal SocketService.new "a" "b").2.2.2.2.1 rfl,
   (joinLead_emits_one_signal SocketService.online "a" "b").2.2.2.2.2 _ rfl⟩

/-- C14: with a null handle `leaveLead(id)` returns the state unchanged: no
signal, no socket created. With a socket held it appends the one signal
leave-lead `id` to what that socket has emitted and changes nothing else. -/
theorem leaveLead_effect (s : SocketService) (id : String) :
    (s.socket = none → s.leaveLead id = s ∧ (s.leaveLead id).sockets = s.sockets) ∧
    (∀ k, s.socket = some k →
      s.leaveLead id
        = { s with
            socket := some { k with emitted := k.emitted ++ [Signal.leaveLead id] } } ∧
      (s.leaveLead id).emitted = s.emitted ++ [Signal.leaveLead id] ∧
      (s.leaveLead id).sockets.length = s.sockets.length) := by
  cases hs : s.socket with
  | none => simp [SocketService.leaveLead, hs]
  | some k =>
    simp [SocketService.leaveLead, SocketService.emitted, SocketService.sockets, hs,
      Socket.emit]

/-- C14 (witness): a leave on the new service and on a connected one. -/
theorem leaveLead_effect_witness :
    SocketService.new.leaveLead "a" = SocketService.new ∧
    (SocketService.online.leaveLead "a").emitted
      = SocketService.online.emitted ++ [Signal.leaveLead "a"] :=
  ⟨((leaveLead_effect SocketService.new "a").1 rfl).1,
   ((leaveLead_effect SocketService.online "a").2 _ rfl).2.1⟩

/-- C15: no effect body or cleanup of `useSocket`, `useScoreUpdates`,
`useLeaderboardUpdates` or the LeadDetail effects closes a transport or clears
the handle. For every sequence of effect steps and every sequence of mounts,
re-renders and unmounts of the four screens: a non-null handle stays non-null,
every transport that existed keeps its status (none becomes disconnected), and
the only transports added are pending ones. Every mount leaves a non-null
handle, whatever the state before. -/
theorem connection_never_destroyed (steps : List Step) (evs : List Lifecycle)
    (s : SocketService) :
    (s.socket.isSome = true → (runSteps steps s).socket.isSome = true) ∧
    (s.socket.isSome = true → (runLifecycle evs s).socket.isSome = true) ∧
    (∃ n, (runLifecycle evs s).sockets.map Socket.status
      = s.sockets.map Socket.status ++ List.replicate n Status.connecting) ∧
    (∀ rest, (runSteps (Step.useSocketSetup :: rest) s).socket.isSome = true) ∧
    (∀ tag page search id,
      (Dashboard.mount s tag).socket.isSome = true ∧
      (Leads.mount s page search tag).socket.isSome = true ∧
      (Leaderboard.mount s tag).socket.isSome = true ∧
      (LeadDetail.mount s id tag).socket.isSome = true) := by
  have hm : ∀ rest, (runSteps (Step.useSocketSetup :: rest) s).socket.isSome = true := by
    intro rest
    apply (keeps_runSteps rest (Step.useSocketSetup.run s)).1
    obtain ⟨k, hk, -⟩ := connect_shape s
    simp [Step.run, useSocket.setup, hk]
  refine ⟨(keeps_runSteps steps s).1, (keeps_runLifecycle evs s).1,
    (keeps_runLifecycle evs s).2, hm, ?_⟩
  intro tag page search id
  obtain ⟨h1, -, -, h2, -, -, h3, -, -, h4, -⟩ :=
    lifecycle_steps_eq s tag page search id id
  rw [← h1, ← h2, ← h3, ← h4]
  exact ⟨hm _, hm _, hm _, hm _⟩

/-- C15 (witness): a connected service through a Dashboard visit and a
LeadDetail visit with a route change. -/
theorem connection_never_destroyed_witness :
    (runLifecycle
      [Lifecycle.dashboardMount 0, Lifecycle.dashboardRerender 1,
       Lifecycle.dashboardUnmount, Lifecycle.leadDetailMount (some "a") 2,
       Lifecycle.leadDetailChangeId (some "a") (some "b") 3,
       Lifecycle.leadDetailUnmount (some "b")]
      SocketService.online).socket.isSome = true :=
  (connection_never_destroyed []
    [Lifecycle.dashboardMount 0, Lifecycle.dashboardRerender 1,
     Lifecycle.dashboardUnmount, Lifecycle.leadDetailMount (some "a") 2,
     Lifecycle.leadDetailChangeId (some "a") (some "b") 3,
     Lifecycle.leadDetailUnmount (some "b")]
    SocketService.online).2.1 rfl

/-- C16: a push payload only invalidates. The Dashboard, Leads and
Leaderboard callbacks make the same fetch calls, with the same arguments, and
leave the same snapshots for any two payloads; the LeadDetail handler does so
for any two payloads whose `leadId` compare alike with `id`. The snapshots are
written by the fetch functions alone, from the responses. -/
theorem push_payload_only_invalidates {D P H : Type} (api : Api D P H)
    (snap : Snapshot D P H) (tag page : Nat) (search : String) (id : Option String)
    (p1 p2 : Payload) (v1 v2 : JsValue) (hv : strictEq v1 id = strictEq v2 id) :
    ((Callback.dashboardScore tag).run p1 = (Callback.dashboardScore tag).run p2 ∧
      (Callback.dashboardScore tag).handle p1 api snap
        = (Callback.dashboardScore tag).handle p2 api snap) ∧
    ((Callback.dashboardLeaderboard tag).run p1
        = (Callback.dashboardLeaderboard tag).run p2 ∧
      (Callback.dashboardLeaderboard tag).handle p1 api snap
        = (Callback.dashboardLeaderboard tag).handle p2 api snap) ∧
    ((Callback.leadsScore page search tag).run p1
        = (Callback.leadsScore page search tag).run p2 ∧
      (Callback.leadsScore page search tag).handle p1 api snap
        = (Callback.leadsScore page search tag).handle p2 api snap) ∧
    ((Callback.leaderboardRefetch tag).run p1 = (Callback.leaderboardRefetch tag).run p2 ∧
      (Callback.leaderboardRefetch tag).handle p1 api snap
        = (Callback.leaderboardRefetch tag).handle p2 api snap) ∧
    ((Callback.handleScoreUpdate id tag).run (Payload.object v1)
        = (Callback.handleScoreUpdate id tag).run (Payload.object v2) ∧
      (Callback.handleScoreUpdate id tag).handle (Payload.object v1) api snap
        = (Callback.handleScoreUpdate id tag).handle (Payload.object v2) api snap) := by
  refine ⟨⟨rfl, rfl⟩, ⟨rfl, rfl⟩, ⟨rfl, rfl⟩, ⟨rfl, rfl⟩, ?_⟩
  have hrun : (Callback.handleScoreUpdate id tag).run (Payload.object v1)
      = (Callback.handleScoreUpdate id tag).run (Payload.object v2) := by
    simp [Callback.run, LeadDetail.handleScoreUpdate, hv]
  exact ⟨hrun, by simp [Callback.handle, hrun]⟩

/-- C16 (witness): on the screen of lead `"a"`, a payload naming lead `"x"`
and a payload whose `leadId` is the number 3. -/
theorem push_payload_only_invalidates_witness :
    (Callback.handleScoreUpdate (some "a") 0).run (Payload.object (JsValue.string "x"))
      = (Callback.handleScoreUpdate (some "a") 0).run
          (Payload.object (JsValue.number 3)) :=
  (push_payload_only_invalidates
    (⟨fun _ => Except.error ⟨"offline"⟩, fun _ => Except.error ⟨"offline"⟩⟩ :
      Api Nat Nat Nat)
    ⟨⟨0, false, none, none⟩, ⟨0, false, none⟩,
      ⟨⟨none, false, none⟩, [], 0, false, false⟩⟩
    0 1 "" (some "a") Payload.nullish Payload.nullish
    (JsValue.string "x") (JsValue.number 3) rfl).2.2.2.2.1

/-- C17: the `refetch` each hook returns is the fetch function its effect
runs on load. A re-fetch reads the answer to the one request built from the
hook's parameters and, when that request succeeds, the new state is made of
`response.data` (and `response.pagination`) alone, whatever the state before.
The Leaderboard callback re-fetches through `useLeaderboard(50)`: the request
is `getLeaderboard(50)`. -/
theorem refetch_is_initial_fetch {D P H : Type} (api : Api D P H)
    (snap : Snapshot D P H)
    (page limit : Nat) (search v : String) (tag : Nat) (data : Payload)
    (stL : LeadsState D P) (st1 : LeadState D) (stB : LeaderboardState D)
    (r : Response D P) :
    (@useLeads.refetch D P = @useLeads.effect D P ∧
      @useLead.refetch D P = @useLead.effect D P ∧
      @useLeaderboard.refetch D P = @useLeaderboard.effect D P) ∧
    ((∀ api1 : Request → Except JsError (Response D P),
        api1 (Request.getLeads page limit search)
          = api.json (Request.getLeads page limit search) →
        useLeads.refetch page limit search api1 stL
          = useLeads.refetch page limit search api.json stL) ∧
      (api.json (Request.getLeads page limit search) = Except.ok r →
        useLeads.refetch page limit search api.json stL
          = { leads := r.data, loading := false, error := none,
              pagination := some r.pagination })) ∧
    ((∀ api1 : Request → Except JsError (Response D P),
        api1 (Request.getLeadById v) = api.json (Request.getLeadById v) →
        useLead.refetch (some v) api1 st1 = useLead.refetch (some v) api.json st1) ∧
      (v ≠ "" → api.json (Request.getLeadById v) = Except.ok r →
        useLead.refetch (some v) api.json st1
          = { lead := some r.data, loading := false, error := none })) ∧
    ((∀ api1 : Request → Except JsError (Response D P),
        api1 (Request.getLeaderboard limit) = api.json (Request.getLeaderboard limit) →
        useLeaderboard.refetch limit api1 stB = useLeaderboard.refetch limit api.json stB) ∧
      (api.json (Request.getLeaderboard limit) = Except.ok r →
        useLeaderboard.refetch limit api.json stB
          = { leaderboard := r.data, loading := false, error := none })) ∧
    (((Callback.leaderboardRefetch tag).handle data api snap).leaderboard
        = useLeaderboard.effect 50 api.json snap.leaderboard ∧
      ((Callback.leaderboardRefetch tag).run data).map Call.requests
        = [[Request.getLeaderboard 50]]) := by
  refine ⟨⟨rfl, rfl, rfl⟩, ⟨?_, ?_⟩, ⟨?_, ?_⟩, ⟨?_, ?_⟩, ⟨rfl, rfl⟩⟩
  · intro api1 h
    simp [useLeads.refetch, useLeads.fetchLeads, h]
  · intro h
    simp [useLeads.refetch, useLeads.fetchLeads, h]
  · intro api1 h
    simp [useLead.refetch, useLead.fetchLead, h]
  · intro hv h
    simp [useLead.refetch, useLead.fetchLead, truthy, hv, h]
  · intro api1 h
    simp [useLeaderboard.refetch, useLeaderboard.fetchLeaderboard, h]
  · intro h
    simp [useLeaderboard.refetch, useLeaderboard.fetchLeaderboard, h]

/-- C17 (witness): the Leaderboard screen holds a stale list with an old
error and the server answers `getLeaderboard(50)` with a new list. -/
theorem refetch_is_initial_fetch_witness :
    useLeaderboard.refetch 50
        (fun _ => (Except.ok ⟨[3, 1, 2], 0⟩ : Except JsError (Response (List Nat) Nat)))
        { leaderboard := [7, 7], loading := false, error := some "stale" }
      = { leaderboard := [3, 1, 2], loading := false, error := none } :=
  (refetch_is_initial_fetch
    (⟨fun _ => Except.ok ⟨[3, 1, 2], 0⟩, fun _ => Except.error ⟨"offline"⟩⟩ :
      Api (List Nat) Nat Nat)
    ⟨⟨[], false, none, none⟩, ⟨[], false, none⟩,
      ⟨⟨none, false, none⟩, [], [], false, false⟩⟩
    1 50 "" "a" 0 Payload.nullish ⟨[], false, none, none⟩ ⟨none, false, none⟩
    { leaderboard := [7, 7], loading := false, error := some "stale" }
    ⟨[3, 1, 2], 0⟩).2.2.2.1.2 rfl

/-- C18 (counterexample): on the LeadDetail screen the score-history request
is rejected with message `"Network Error"`; afterwards the error state of the
screen is still `null`, and so it is when the events request is rejected. -/
theorem fetchScoreHistory_rejection_sets_no_error :
    (LeadDetail.fetchScoreHistory (some "a")
        (fun _ => (Except.error ⟨"Network Error"⟩ :
          Except JsError (Response (List Nat) Nat)))
        ({ useLead := { lead := some 1, loading := false, error := none }
           scoreHistory := [], events := 0
           historyLoading := true, eventsLoading := true } :
          DetailState Nat Nat)).useLead.error
      ≠ some "Network Error" ∧
    (LeadDetail.fetchEvents (some "a")
        (fun _ => (Except.error ⟨"Network Error"⟩ : Except JsError (Response Nat Nat)))
        ({ useLead := { lead := some 1, loading := false, error := none }
           scoreHistory := [], events := 0
           historyLoading := true, eventsLoading := true } :
          DetailState Nat Nat)).useLead.error
      ≠ some "Network Error" := by
  decide

/-- C18 (amended): when the request is rejected with `err`, `fetchLeads`,
`fetchLead` (for a non-empty id), `fetchLeaderboard` and `fetchRules` end with
the error state holding `err.message`, loading false and the data kept;
`fetchScoreHistory` and `fetchEvents` end with their loading flag false and
nothing else changed. Each function returns a state: no exception escapes. -/
theorem rejected_fetch_outcome {D P H : Type}
    (api : Request → Except JsError (Response D P))
    (apiH : Request → Except JsError (Response (List H) P)) (err : JsError)
    (page limit : Nat) (search v : String) (id : Option String)
    (stL : LeadsState D P) (st1 : LeadState D) (stB : LeaderboardState D)
    (stR : RulesState D) (stD : DetailState D H) :
    (api (Request.getLeads page limit search) = Except.error err →
      useLeads.fetchLeads page limit search api stL
        = { stL with loading := false, error := some err.message }) ∧
    (v ≠ "" → api (Request.getLeadById v) = Except.error err →
      useLead.fetchLead (some v) api st1
        = { st1 with loading := false, error := some err.message }) ∧
    (api (Request.getLeaderboard limit) = Except.error err →
      useLeaderboard.fetchLeaderboard limit api stB
        = { stB with loading := false, error := some err.message }) ∧
    (api Request.getScoringRules = Except.error err →
      ScoringRules.fetchRules api stR
        = { stR with loading := false, error := some err.message }) ∧
    (apiH (Request.getScoreHistory id 1 50) = Except.error err →
      LeadDetail.fetchScoreHistory id apiH stD = { stD with historyLoading := false }) ∧
    (api (Request.getEvents id 1 20) = Except.error err →
      LeadDetail.fetchEvents id api stD = { stD with eventsLoading := false }) := by
  refine ⟨?_, ?_, ?_, ?_, ?_, ?_⟩
  · intro h
    simp [useLeads.fetchLeads, h]
  · intro hv h
    simp [useLead.fetchLead, truthy, hv, h]
  · intro h
    simp [useLeaderboard.fetchLeaderboard, h]
  · intro h
    simp [ScoringRules.fetchRules, h]
  · intro h
    simp [LeadDetail.fetchScoreHistory, h]
  · intro h
    simp [LeadDetail.fetchEvents, h]

/-- C18 (witness): every request is rejected with `"Network Error"`. -/
theorem rejected_fetch_outcome_witness :
    useLeads.fetchLeads 1 20 ""
        (fun _ => (Except.error ⟨"Network Error"⟩ : Except JsError (Response Nat Nat)))
        { leads := 5, loading := true, error := none, pagination := none }
      = { leads := 5, loading := false, error := some "Network Error", pagination := none } ∧
    useLead.fetchLead (some "a")
        (fun _ => (Except.error ⟨"Network Error"⟩ : Except JsError (Response Nat Nat)))
        { lead := none, loading := true, error := none }
      = { lead := none, loading := false, error := some "Network Error" } ∧
    LeadDetail.fetchScoreHistory (some "a")
        (fun _ => (Except.error ⟨"Network Error"⟩ :
          Except JsError (Response (List Nat) Nat)))
        ({ useLead := { lead := some 1, loading := false, error := none }
           scoreHistory := [4], events := 0
           historyLoading := true, eventsLoading := true } : DetailState Nat Nat)
      = { useLead := { lead := some 1, loading := false, error := none }
          scoreHistory := [4], events := 0
          historyLoading := false, eventsLoading := true } :=
  ⟨(rejected_fetch_outcome
      (fun _ => (Except.error ⟨"Network Error"⟩ : Except JsError (Response Nat Nat)))
      (fun _ => (Except.error ⟨"Network Error"⟩ : Except JsError (Response (List Nat) Nat)))
      ⟨"Network Error"⟩ 1 20 "" "a" (some "a")
      { leads := 5, loading := true, error := none, pagination := none }
      { lead := none, loading := true, error := none }
      { leaderboard := 0, loading := true, error := none }
      { rules := 0, loading := true, error := none }
      { useLead := { lead := some 1, loading := false, error := none }
        scoreHistory := [4], events := 0
        historyLoading := true, eventsLoading := true }).1 rfl,
   (rejected_fetch_outcome
      (fun _ => (Except.error ⟨"Network Error"⟩ : Except JsError (Response Nat Nat)))
      (fun _ => (Except.error ⟨"Network Error"⟩ : Except JsError (Response (List Nat) Nat)))
      ⟨"Network Error"⟩ 1 20 "" "a" (some "a")
      { leads := 5, loading := true, error := none, pagination := none }
      { lead := none, loading := true, error := none }
      { leaderboard := 0, loading := true, error := none }
      { rules := 0, loading := true, error := none }
      { useLead := { lead := some 1, loading := false, error := none }
        scoreHistory := [4], events := 0
        historyLoading := true, eventsLoading := true }).2.1 (by decide) rfl,
   (rejected_fetch_outcome
      (fun _ => (Except.error ⟨"Network Error"⟩ : Except JsError (Response Nat Nat)))
      (fun _ => (Except.error ⟨"Network Error"⟩ : Except JsError (Response (List Nat) Nat)))
      ⟨"Network Error"⟩ 1 20 "" "a" (some "a")
      { leads := 5, loading := true, error := none, pagination := none }
      { lead := none, loading := true, error := none }
      { leaderboard := 0, loading := true, error := none }
      { rules := 0, loading := true, error := none }
      { useLead := { lead := some 1, loading := false, error := none }
        scoreHistory := [4], events := 0
        historyLoading := true, eventsLoading := true }).2.2.2.2.1 rfl⟩

/-- C19: in `handleManualSubmit`, a metadata text that is not blank and that
`JSON.parse` rejects with `err` ends the submission before the network layer:
`createEvent` is not called, the message is `{type: 'error', text: err.message}`,
loading ends false and the form fields are as they were. A blank metadata text
is never parsed: with the valid timestamp the form supplies, `createEvent` is
called once, with the form's fields, the ISO timestamp and the empty object as
metadata. -/
theorem invalid_metadata_is_caught {J : Type} (b : Builtins J)
    (createEvent : EventData J → Except JsError Unit) (st : EventsState)
    (err : JsError) (iso : String) :
    (isBlank st.eventForm.metadata = false →
      b.parse st.eventForm.metadata = Except.error err →
      handleManualSubmit b createEvent st
        = ({ loading := false
             message := some { type := "error", text := err.message }
             eventForm := st.eventForm }, [])) ∧
    (isBlank st.eventForm.metadata = true →
      b.toISOString st.eventForm.timestamp = Except.ok iso →
      (handleManualSubmit b createEvent st).2
        = [{ event_id := st.eventForm.event_id
             lead_id := st.eventForm.lead_id
             event_type := st.eventForm.event_type
             timestamp := iso
             metadata := b.emptyObject }]) := by
  constructor
  · intro hb hp
    have ht : jsTrim st.eventForm.metadata ≠ "" := by
      intro h
      rw [jsTrim_eq_empty_iff] at h
      rw [h] at hb
      cases hb
    simp [handleManualSubmit, ht, hp]
  · intro hb ht
    have h0 : jsTrim st.eventForm.metadata = "" := (jsTrim_eq_empty_iff _).mpr hb
    simp only [handleManualSubmit, h0, bne_self_eq_false, Bool.false_eq_true, if_false, ht]
    cases createEvent _ <;> rfl

/-- C19 (witness): a metadata text that is an opening brace followed by
`oops`, with JSON values read as numbers, and a metadata text of two spaces. -/
theorem invalid_metadata_is_caught_witness :
    handleManualSubmit
        ({ parse := fun t => if t = "\x7b\x7d" then Except.ok 0 else
              Except.error ⟨"Unexpected token o in JSON at position 1"⟩
           emptyObject := 0
           toISOString := fun t => Except.ok (t ++ ":00.000Z")
           now := "2024-01-01T00:00" } : Builtins Nat)
        (fun _ => Except.ok ())
        { loading := false, message := none
          eventForm :=
            { event_id := "e1", lead_id := "user@example.com", event_type := "PAGE_VIEW"
              timestamp := "2024-01-01T10:00", metadata := "\x7boops" } }
      = ({ loading := false
           message := some
             { type := "error", text := "Unexpected token o in JSON at position 1" }
           eventForm :=
             { event_id := "e1", lead_id := "user@example.com", event_type := "PAGE_VIEW"
               timestamp := "2024-01-01T10:00", metadata := "\x7boops" } }, []) ∧
    (handleManualSubmit
        ({ parse := fun t => if t = "\x7b\x7d" then Except.ok 0 else
              Except.error ⟨"Unexpected token o in JSON at position 1"⟩
           emptyObject := 0
           toISOString := fun t => Except.ok (t ++ ":00.000Z")
           now := "2024-01-01T00:00" } : Builtins Nat)
        (fun _ => Except.ok ())
        { loading := false, message := none
          eventForm :=
            { event_id := "e1", lead_id := "user@example.com", event_type := "PAGE_VIEW"
              timestamp := "2024-01-01T10:00", metadata := "  " } }).2
      = [{ event_id := "e1", lead_id := "user@example.com", event_type := "PAGE_VIEW"
           timestamp := "2024-01-01T10:00:00.000Z", metadata := 0 }] :=
  ⟨(invalid_metadata_is_caught _ _ _ ⟨"Unexpected token o in JSON at position 1"⟩ "").1
      (by decide) rfl,
   (invalid_metadata_is_caught _ _ _ ⟨""⟩ "2024-01-01T10:00:00.000Z").2
      (by decide) rfl⟩

/-- C20: a transport error is observed, not thrown. On a socket created by
`connect()` the only `connect_error` handler is the logging one, which makes
no fetch call. When the handshake of the held socket fails, the service keeps
the same handle (the socket is now errored, its handlers and emitted signals
as before), the same map and the same other sockets; the held socket is not
connected, so the next `connect()` creates a new transport and holds it. -/
theorem connect_error_is_observed (s0 s : SocketService) (k : Socket) (data : Payload)
    (h0 : s0.socketConnected = false) (hs : s.socket = some k)
    (hk : k.status = Status.connecting) :
    s0.connect.connectErrorCallbacks = [Callback.logConnectionError] ∧
    Callback.logConnectionError.run data = [] ∧
    Callback.logConnectionError.log = some "Connection error:" ∧
    s.connectError.socket = some { k with status := Status.errored } ∧
    s.connectError.listeners = s.listeners ∧
    s.connectError.orphans = s.orphans ∧
    s.connectError.socketConnected = false ∧
    s.connectError.connect.socket = SocketService.new.connect.socket ∧
    s.connectError.connect.sockets
      = s.connectError.sockets ++ SocketService.new.connect.socket.toList ∧
    s.connectError.connect.listeners = s.listeners := by
  refine ⟨?_, rfl, rfl, ?_, rfl, rfl, ?_, ?_, ?_, ?_⟩
  · simp [SocketService.connect, h0, SocketService.connectErrorCallbacks,
      Socket.registered, Socket.on, io]
  · simp [SocketService.connectError, hs, Socket.fail, hk]
  · simp [SocketService.connectError, hs, Socket.fail, hk, SocketService.socketConnected,
      Socket.connected]
  · simp [SocketService.connectError, hs, Socket.fail, hk, SocketService.connect,
      SocketService.socketConnected, Socket.connected, SocketService.new]
  · simp [SocketService.connectError, hs, Socket.fail, hk, SocketService.connect,
      SocketService.socketConnected, Socket.connected, SocketService.new,
      SocketService.sockets]
  · simp [SocketService.connectError, hs, Socket.fail, hk, SocketService.connect,
      SocketService.socketConnected, Socket.connected]

/-- C20 (witness): the first `connect()` of a new service fails after a
callback was bound, and `connect()` is called again. -/
theorem connect_error_is_observed_witness :
    SocketService.new.connect.connectErrorCallbacks = [Callback.logConnectionError] ∧
    (SocketService.new.onScoreUpdate (Callback.other 1)).connectError.socketConnected
      = false ∧
    (SocketService.new.onScoreUpdate (Callback.other 1)).connectError.connect.socket
      = SocketService.new.connect.socket :=
  ⟨(connect_error_is_observed SocketService.new
      (SocketService.new.onScoreUpdate (Callback.other 1)) _ Payload.nullish
      rfl rfl rfl).1,
   (connect_error_is_observed SocketService.new
      (SocketService.new.onScoreUpdate (Callback.other 1)) _ Payload.nullish
      rfl rfl rfl).2.2.2.2.2.2.1,
   (connect_error_is_observed SocketService.new
      (SocketService.new.onScoreUpdate (Callback.other 1)) _ Payload.nullish
      rfl rfl rfl).2.2.2.2.2.2.2.1⟩

/-- C21: for every leaderboard list the table has one row per entry, in list
order, and the ranks shown are `1, 2, ..., N`: strictly increasing, without
duplicate, and exactly the numbers from 1 to the length of the list. -/
theorem leaderboard_ranks {L : Type} (leaderboard : List L) :
    (Leaderboard.rows leaderboard).map Prod.snd = leaderboard ∧
    (Leaderboard.rows leaderboard).length = leaderboard.length ∧
    (Leaderboard.rows leaderboard).map Prod.fst = List.range' 1 leaderboard.length ∧
    ((Leaderboard.rows leaderboard).map Prod.fst).Pairwise (fun a b => a < b) ∧
    ((Leaderboard.rows leaderboard).map Prod.fst).Nodup ∧
    (∀ r, r ∈ (Leaderboard.rows leaderboard).map Prod.fst ↔
      1 ≤ r ∧ r ≤ leaderboard.length) := by
  have hsnd : (Leaderboard.rows leaderboard).map Prod.snd = leaderboard := by
    simp only [Leaderboard.rows, List.map_map]
    exact List.enum_map_snd leaderboard
  have hfst : (Leaderboard.rows leaderboard).map Prod.fst
      = List.range' 1 leaderboard.length := by
    have : (Prod.fst ∘ fun p : Nat × L => (p.1 + 1, p.2)) = (fun i => 1 + i) ∘ Prod.fst := by
      funext p
      simp [Nat.add_comm]
    simp only [Leaderboard.rows, List.map_map, this]
    rw [← List.map_map, List.enum_map_fst, List.range'_eq_map_range]
  refine ⟨hsnd, by simp [Leaderboard.rows], hfst, ?_, ?_, ?_⟩
  · rw [hfst]
    exact List.pairwise_lt_range' 1 leaderboard.length
  · rw [hfst]
    exact List.nodup_range' 1 leaderboard.length
  · intro r
    rw [hfst, List.mem_range'_1]
    omega

/-- C22 (evaluation at the failing input): on a connected service,
`onScoreUpdate(cb)` called twice with the same callback attaches `cb` twice,
so the state differs from the one after a single call and a `score-updated`
event invokes `cb` twice; a `removeAllListeners()` then detaches one of the two
attachments only. The same holds for `onLeaderboardUpdate`. -/
theorem repeated_subscription_attaches_twice :
    (SocketService.online.onScoreUpdate (Callback.other 1)).onScoreUpdate (Callback.other 1)
      ≠ SocketService.online.onScoreUpdate (Callback.other 1) ∧
    (SocketService.online.onScoreUpdate (Callback.other 1)).push Event.scoreUpdated
      = [Callback.other 1] ∧
    ((SocketService.online.onScoreUpdate (Callback.other 1)).onScoreUpdate
        (Callback.other 1)).push Event.scoreUpdated
      = [Callback.other 1, Callback.other 1] ∧
    (((SocketService.online.onScoreUpdate (Callback.other 1)).onScoreUpdate
        (Callback.other 1)).removeAllListeners).push Event.scoreUpdated
      = [Callback.other 1] ∧
    ((SocketService.online.onLeaderboardUpdate (Callback.other 1)).onLeaderboardUpdate
        (Callback.other 1)).push Event.leaderboardUpdated
      = [Callback.other 1, Callback.other 1] := by
  decide

/-- C23: when the score-history request succeeds with records sorted by
timestamp, newest first, `fetchScoreHistory` stores exactly the reverse of the
response: the same records, oldest first. `formatChartData` keeps length and
order and gives each point `score = newScore` and `previousScore =
previousScore` of its record. -/
theorem score_history_chronological {D P T S : Type} [LE T] (id : Option String)
    (api : Request → Except JsError (Response (List (ScoreRecord T S)) P))
    (st : DetailState D (ScoreRecord T S)) (r : Response (List (ScoreRecord T S)) P)
    (toLocaleDateString : T → String)
    (hok : api (Request.getScoreHistory id 1 50) = Except.ok r)
    (hsorted : r.data.Pairwise (fun a b => b.timestamp ≤ a.timestamp)) :
    (LeadDetail.fetchScoreHistory id api st).scoreHistory = r.data.reverse ∧
    (LeadDetail.fetchScoreHistory id api st).scoreHistory.Perm r.data ∧
    (LeadDetail.fetchScoreHistory id api st).scoreHistory.Pairwise
      (fun a b => a.timestamp ≤ b.timestamp) ∧
    (LeadDetail.fetchScoreHistory id api st).historyLoading = false ∧
    (LeadDetail.formatChartData toLocaleDateString
      (LeadDetail.fetchScoreHistory id api st).scoreHistory).length = r.data.length ∧
    (LeadDetail.formatChartData toLocaleDateString
      (LeadDetail.fetchScoreHistory id api st).scoreHistory).map ChartPoint.score
      = (LeadDetail.fetchScoreHistory id api st).scoreHistory.map ScoreRecord.newScore ∧
    (LeadDetail.formatChartData toLocaleDateString
      (LeadDetail.fetchScoreHistory id api st).scoreHistory).map ChartPoint.previousScore
      = (LeadDetail.fetchScoreHistory id api st).scoreHistory.map
          ScoreRecord.previousScore ∧
    (LeadDetail.formatChartData toLocaleDateString
      (LeadDetail.fetchScoreHistory id api st).scoreHistory).map ChartPoint.timestamp
      = (LeadDetail.fetchScoreHistory id api st).scoreHistory.map
          (fun item => toLocaleDateString item.timestamp) := by
  have hh : (LeadDetail.fetchScoreHistory id api st).scoreHistory = r.data.reverse := by
    simp [LeadDetail.fetchScoreHistory, hok]
  have hl : (LeadDetail.fetchScoreHistory id api st).historyLoading = false := by
    simp [LeadDetail.fetchScoreHistory, hok]
  refine ⟨hh, ?_, ?_, hl, ?_, ?_, ?_, ?_⟩
  · rw [hh]
    exact List.reverse_perm r.data
  · rw [hh, List.pairwise_reverse]
    exact hsorted
  · simp [LeadDetail.formatChartData, hh]
  · simp [LeadDetail.formatChartData, List.map_map, Function.comp_def]
  · simp [LeadDetail.formatChartData, List.map_map, Function.comp_def]
  · simp [LeadDetail.formatChartData, List.map_map, Function.comp_def]

/-- C23 (witness): three records with timestamps 30, 20, 10. -/
theorem score_history_chronological_witness :
    (LeadDetail.fetchScoreHistory (some "a")
        (fun _ => (Except.ok
          ⟨[⟨30, 25, 15⟩, ⟨20, 15, 5⟩, ⟨10, 5, 0⟩], 0⟩ :
            Except JsError (Response (List (ScoreRecord Nat Int)) Nat)))
        ({ useLead := { lead := some 1, loading := false, error := none }
           scoreHistory := [], events := 0
           historyLoading := true, eventsLoading := true } :
          DetailState Nat (ScoreRecord Nat Int))).scoreHistory
      = [⟨10, 5, 0⟩, ⟨20, 15, 5⟩, ⟨30, 25, 15⟩] :=
  (score_history_chronological (some "a")
    (fun _ => (Except.ok
      ⟨[⟨30, 25, 15⟩, ⟨20, 15, 5⟩, ⟨10, 5, 0⟩], 0⟩ :
        Except JsError (Response (List (ScoreRecord Nat Int)) Nat)))
    ({ useLead := { lead := some 1, loading := false, error := none }
       scoreHistory := [], events := 0
       historyLoading := true, eventsLoading := true } :
      DetailState Nat (ScoreRecord Nat Int))
    ⟨[⟨30, 25, 15⟩, ⟨20, 15, 5⟩, ⟨10, 5, 0⟩], 0⟩ (fun t => toString t) rfl
    (by decide)).1

/-- C24 (counterexample): leads with the integer scores `2 ^ 51`, `2 ^ 51` and
`2 ^ 51 + 1`. The stats effect sets `averageScore` to 2251799813685249, while
the integer nearest to sum / length, the sum being 6755399441055745, is
2251799813685248: the quotient `2 ^ 51 + 1/3` is not a double, the division
gives `2 ^ 51 + 1/2`, and `Math.round` takes that up. -/
theorem dashboard_average_rounds_double_quotient :
    (Dashboard.statsEffect
        [(⟨⟨2251799813685248, by decide⟩, none⟩ : DashboardLead Nat),
         ⟨⟨2251799813685248, by decide⟩, none⟩, ⟨⟨2251799813685249, by decide⟩, none⟩]
        Dashboard.initialStats).averageScore = 2251799813685249 ∧
    nearestHalfUp (2251799813685248 + 2251799813685248 + 2251799813685249) 3
      = 2251799813685248 := by
  constructor
  · rw [statsEffect_averageScore _ _ _ (by decide)]
    exact mathRound_roundDouble_example
  · decide

/-- C24 (amended): for a non-empty leads list the stats effect computes, from
the list alone: `totalLeads`, the length; `topScore`, the greatest
`currentScore`; `totalEvents`, the sum of the `events` lengths with a missing
array counted as 0. The previous value of `stats` plays no part. When the
absolute values of the scores add up to less than `2 ^ 52`, `averageScore` is
the integer nearest to sum / length with a half going up; it is then at least
the score of some lead, hence at least the least score, and at most
`topScore`. -/
theorem dashboard_stats_from_list {E : Type} (first : DashboardLead E)
    (rest : List (DashboardLead E)) (stats stats1 : Stats) :
    (Dashboard.statsEffect (first :: rest) stats).totalLeads = (first :: rest).length ∧
    (∀ lead ∈ first :: rest,
      lead.currentScore.val ≤ (Dashboard.statsEffect (first :: rest) stats).topScore) ∧
    (∃ lead ∈ first :: rest,
      lead.currentScore.val = (Dashboard.statsEffect (first :: rest) stats).topScore) ∧
    (Dashboard.statsEffect (first :: rest) stats).totalEvents
      = ((first :: rest).map eventCount).sum ∧
    Dashboard.statsEffect (first :: rest) stats1
      = Dashboard.statsEffect (first :: rest) stats ∧
    (((first :: rest).map (fun lead => lead.currentScore.val.natAbs)).sum < 2 ^ 52 →
      (Dashboard.statsEffect (first :: rest) stats).averageScore
        = nearestHalfUp ((first :: rest).map (fun lead => lead.currentScore.val)).sum
            ((first :: rest).length : Int) ∧
      (2 * ((first :: rest).length : Int)
          * (Dashboard.statsEffect (first :: rest) stats).averageScore
        ≤ 2 * ((first :: rest).map (fun lead => lead.currentScore.val)).sum
          + ((first :: rest).length : Int)) ∧
      (2 * ((first :: rest).map (fun lead => lead.currentScore.val)).sum
          + ((first :: rest).length : Int)
        < 2 * ((first :: rest).length : Int)
          * ((Dashboard.statsEffect (first :: rest) stats).averageScore + 1)) ∧
      (∃ lead ∈ first :: rest,
        lead.currentScore.val
          ≤ (Dashboard.statsEffect (first :: rest) stats).averageScore) ∧
      (Dashboard.statsEffect (first :: rest) stats).averageScore
        ≤ (Dashboard.statsEffect (first :: rest) stats).topScore) := by
  have hn : (0 : Int) < ((first :: rest).length : Int) := by
    simp only [List.length_cons, Nat.cast_add, Nat.cast_one]
    omega
  have hev : (first :: rest).foldl (fun sum lead => sum + eventCount lead) 0
      = ((first :: rest).map eventCount).sum := by
    rw [foldl_add_nat]
    simp
  obtain ⟨m1, m2, m3⟩ := foldl_max_spec (fun lead : DashboardLead E => lead.currentScore.val)
    rest first.currentScore.val
  have htopeq : (Dashboard.statsEffect (first :: rest) stats).topScore
      = rest.foldl (fun m lead => max m lead.currentScore.val) first.currentScore.val := rfl
  have htop : ∀ lead ∈ first :: rest,
      lead.currentScore.val ≤ (Dashboard.statsEffect (first :: rest) stats).topScore := by
    intro lead hl
    rw [htopeq]
    rcases List.mem_cons.mp hl with rfl | hl
    · exact m1
    · exact m2 lead hl
  refine ⟨rfl, htop, ?_, ?_, rfl, ?_⟩
  · rw [htopeq]
    rcases m3 with h | ⟨x, hx, hfx⟩
    · exact ⟨first, List.mem_cons_self _ _, h.symm⟩
    · exact ⟨x, List.mem_cons_of_mem _ hx, hfx⟩
  · simp only [Dashboard.statsEffect, hev]
  · intro hbound
    have hS := natAbs_sum_le (fun lead : DashboardLead E => lead.currentScore.val)
      (first :: rest)
    have havg : (Dashboard.statsEffect (first :: rest) stats).averageScore
        = nearestHalfUp ((first :: rest).map (fun lead => lead.currentScore.val)).sum
            ((first :: rest).length : Int) := by
      rw [statsEffect_averageScore first rest stats (by omega)]
      exact mathRound_roundDouble_div _ _ (by simp) (by omega)
    have hnear := nearestHalfUp_nearest
      ((first :: rest).map (fun lead => lead.currentScore.val)).sum
      ((first :: rest).length : Int) hn
    refine ⟨havg, ?_, ?_, ?_, ?_⟩
    · rw [havg]
      exact hnear.1
    · rw [havg]
      exact hnear.2
    · by_contra hcon
      push_neg at hcon
      have hlow := length_mul_le_sum
        ((first :: rest).map (fun lead => lead.currentScore.val))
        ((Dashboard.statsEffect (first :: rest) stats).averageScore + 1)
        (by
          intro x hx
          obtain ⟨lead, hl, rfl⟩ := List.mem_map.mp hx
          have := hcon lead hl
          omega)
      rw [List.length_map] at hlow
      have := le_nearestHalfUp _ _ _ hn hlow
      rw [← havg] at this
      omega
    · rw [havg]
      apply nearestHalfUp_le _ _ _ hn
      have hup := sum_le_length_mul
        ((first :: rest).map (fun lead => lead.currentScore.val))
        ((Dashboard.statsEffect (first :: rest) stats).topScore)
        (by
          intro x hx
          obtain ⟨lead, hl, rfl⟩ := List.mem_map.mp hx
          exact htop lead hl)
      rw [List.length_map] at hup
      exact hup

/-- C24 (witness): scores 10 and 15: the average 12.5 is shown as 13, which is
at most the top score 15. -/
theorem dashboard_stats_from_list_witness :
    (Dashboard.statsEffect
        [(⟨⟨10, by decide⟩, some [1, 2]⟩ : DashboardLead Nat), ⟨⟨15, by decide⟩, none⟩]
        Dashboard.initialStats).averageScore = 13 ∧
    (Dashboard.statsEffect
        [(⟨⟨10, by decide⟩, some [1, 2]⟩ : DashboardLead Nat), ⟨⟨15, by decide⟩, none⟩]
        Dashboard.initialStats).averageScore
      ≤ (Dashboard.statsEffect
        [(⟨⟨10, by decide⟩, some [1, 2]⟩ : DashboardLead Nat), ⟨⟨15, by decide⟩, none⟩]
        Dashboard.initialStats).topScore :=
  ⟨((dashboard_stats_from_list (⟨⟨10, by decide⟩, some [1, 2]⟩ : DashboardLead Nat)
      [⟨⟨15, by decide⟩, none⟩] Dashboard.initialStats Dashboard.initialStats).2.2.2.2.2
      (by decide)).1.trans (by decide),
   ((dashboard_stats_from_list (⟨⟨10, by decide⟩, some [1, 2]⟩ : DashboardLead Nat)
      [⟨⟨15, by decide⟩, none⟩] Dashboard.initialStats Dashboard.initialStats).2.2.2.2.2
      (by decide)).2.2.2.2⟩

/-- C25: in `exportToCSV` a string value that contains a comma or a double
quote is written as a double quote, the value with every double quote doubled,
and a double quote; reading that field by the standard CSV quoting rule gives
the value back. A string that contains neither is written as it stands. -/
theorem csv_quoting_roundtrip (s : String) :
    ((comma ∈ s.toList ∨ dquote ∈ s.toList) →
      csvField (CellValue.string s)
        = String.mk (dquote :: escapeQuotes s.toList ++ [dquote]) ∧
      csvParseField (csvField (CellValue.string s)) = some s) ∧
    (¬ (comma ∈ s.toList ∨ dquote ∈ s.toList) → csvField (CellValue.string s) = s) := by
  constructor
  · intro h
    have hf : csvField (CellValue.string s)
        = String.mk (dquote :: escapeQuotes s.toList ++ [dquote]) := by
      simp only [csvField, h, if_true]
    refine ⟨hf, ?_⟩
    rw [hf]
    simp only [csvParseField, String.toList, List.cons_append, if_true]
    rw [csvUnquoteBody_escapeQuotes]
    rfl
  · intro h
    simp only [csvField, h, if_false, CellValue.orEmpty, CellValue.truthy]
    by_cases hs : s = ""
    · subst hs; rfl
    · simp [hs, CellValue.joinText]

/-- C25 (witness): the company name `Acme, Inc` and the plain name `Acme`. -/
theorem csv_quoting_roundtrip_witness :
    csvParseField (csvField (CellValue.string "Acme, Inc")) = some "Acme, Inc" ∧
    csvField (CellValue.string "Acme") = "Acme" :=
  ⟨((csv_quoting_roundtrip "Acme, Inc").1 (by decide)).2,
   (csv_quoting_roundtrip "Acme").2 (by decide)⟩

/-- C26: with an empty leads list the stats effect writes nothing: `stats`
keeps its value, be it the initial zeros or the values computed from the
previous non-empty list. -/
theorem empty_leads_keep_stats {E : Type} (stats : Stats) (first : DashboardLead E)
    (rest : List (DashboardLead E)) :
    Dashboard.statsEffect ([] : List (DashboardLead E)) stats = stats ∧
    Dashboard.statsEffect ([] : List (DashboardLead E)) Dashboard.initialStats
      = { totalLeads := 0, averageScore := 0, totalEvents := 0, topScore := 0 } ∧
    Dashboard.statsEffect ([] : List (DashboardLead E))
        (Dashboard.statsEffect (first :: rest) stats)
      = Dashboard.statsEffect (first :: rest) stats :=
  ⟨rfl, rfl, rfl⟩

/-- C27: in `exportToCSV` every falsy value, that is the number 0, `false`,
`null`, `undefined`, `NaN` and the empty string and no other value, is written
as the empty field, so a lead whose `currentScore` is 0 gets an empty
`Current Score` column. Every truthy value that is not a string is written as
its default string conversion: `true` as `true`, a non-zero safe integer in
decimal digits (7 as `7`, -12 as `-12`), any other number and any other value
as the text `String(value)` gives for it. -/
theorem falsy_cells_are_empty (v : CellValue) (n : SafeInteger) (text : String)
    (toLocaleDateString : CellValue → String) (lead : ExportLead) :
    (v.truthy = false → csvField v = "") ∧
    (v.truthy = false ↔
      v = CellValue.number ⟨0, by decide⟩ ∨ v = CellValue.bool false ∨
      v = CellValue.null ∨ v = CellValue.undefined ∨ v = CellValue.nan ∨
      v = CellValue.string "") ∧
    (csvField (CellValue.number ⟨0, by decide⟩) = "" ∧
      csvField (CellValue.bool false) = "" ∧
      csvField CellValue.null = "" ∧ csvField CellValue.undefined = "" ∧
      csvField CellValue.nan = "" ∧ csvField (CellValue.string "") = "") ∧
    (lead.currentScore = CellValue.number ⟨0, by decide⟩ →
      (formatLeadsForExport toLocaleDateString [lead]).map
        (fun row => csvField (rowGet row "Current Score")) = [""]) ∧
    (v.truthy = true → (∀ s, v ≠ CellValue.string s) → csvField v = v.joinText) ∧
    csvField (CellValue.bool true) = "true" ∧
    (n.val ≠ 0 → csvField (CellValue.number n) = toString n.val) ∧
    csvField (CellValue.number ⟨7, by decide⟩) = "7" ∧
    csvField (CellValue.number ⟨-12, by decide⟩) = "-12" ∧
    csvField (CellValue.otherNumber text) = text ∧
    csvField (CellValue.object text) = text := by
  refine ⟨?_, ?_, ⟨by decide, by decide, by decide, by decide, by decide, by decide⟩,
    ?_, ?_, by decide, ?_, by decide, by decide, ?_, ?_⟩
  · intro h
    cases v with
    | string s =>
      have hs : s = "" := by simpa [CellValue.truthy] using h
      subst hs
      decide
    | _ => simp only [csvField]; exact orEmpty_joinText_of_falsy _ h
  · cases v with
    | number m =>
      obtain ⟨m, hm⟩ := m
      simp [CellValue.truthy, Subtype.ext_iff]
    | bool b => cases b <;> simp [CellValue.truthy]
    | string s => simp [CellValue.truthy]
    | _ => simp [CellValue.truthy]
  · intro h
    have hg : rowGet
        [("Lead ID", lead.id), ("Email", lead.email),
         ("First Name", lead.firstName.orEmpty), ("Last Name", lead.lastName.orEmpty),
         ("Company", lead.company.orEmpty), ("Phone", lead.phone.orEmpty),
         ("Current Score", lead.currentScore), ("Max Score", lead.maxScore),
         ("Last Activity",
           if lead.lastProcessedEventTime.truthy then
             CellValue.string (toLocaleDateString lead.lastProcessedEventTime)
           else CellValue.string "No activity"),
         ("Created Date", CellValue.string (toLocaleDateString lead.createdAt))]
        "Current Score" = lead.currentScore := by
      simp [rowGet, List.find?]
    simp only [formatLeadsForExport, List.map_cons, List.map_nil]
    rw [hg, h]
    decide
  · intro h hns
    cases v with
    | string s => exact absurd rfl (hns s)
    | _ => simp [csvField, CellValue.orEmpty, h]
  · intro hn
    simp [csvField, CellValue.orEmpty, CellValue.truthy, hn, CellValue.joinText]
  · simp [csvField, CellValue.orEmpty, CellValue.truthy, CellValue.joinText]
  · simp [csvField, CellValue.orEmpty, CellValue.truthy, CellValue.joinText]

/-- C27 (witness): a lead with score 0 has an empty score column, and a score
of 350 is written `350`. -/
theorem falsy_cells_are_empty_witness :
    (formatLeadsForExport (fun _ => "1/1/2024")
        [{ id := CellValue.number ⟨1, by decide⟩, email := CellValue.string "a@b.c"
           firstName := CellValue.undefined, lastName := CellValue.undefined
           company := CellValue.undefined, phone := CellValue.undefined
           currentScore := CellValue.number ⟨0, by decide⟩
           maxScore := CellValue.number ⟨9, by decide⟩
           lastProcessedEventTime := CellValue.null
           createdAt := CellValue.string "2024-01-01" }]).map
        (fun row => csvField (rowGet row "Current Score")) = [""] ∧
    csvField (CellValue.number ⟨350, by decide⟩) = "350" :=
  ⟨(falsy_cells_are_empty CellValue.null ⟨350, by decide⟩ "" (fun _ => "1/1/2024")
      { id := CellValue.number ⟨1, by decide⟩, email := CellValue.string "a@b.c"
        firstName := CellValue.undefined, lastName := CellValue.undefined
        company := CellValue.undefined, phone := CellValue.undefined
        currentScore := CellValue.number ⟨0, by decide⟩
        maxScore := CellValue.number ⟨9, by decide⟩
        lastProcessedEventTime := CellValue.null
        createdAt := CellValue.string "2024-01-01" }).2.2.2.1 rfl,
   (falsy_cells_are_empty CellValue.null ⟨350, by decide⟩ "" (fun _ => "1/1/2024")
      { id := CellValue.number ⟨1, by decide⟩, email := CellValue.string "a@b.c"
        firstName := CellValue.undefined, lastName := CellValue.undefined
        company := CellValue.undefined, phone := CellValue.undefined
        currentScore := CellValue.number ⟨0, by decide⟩
        maxScore := CellValue.number ⟨9, by decide⟩
        lastProcessedEventTime := CellValue.null
        createdAt := CellValue.string "2024-01-01" }).2.2.2.2.2.2.1 (by decide)⟩

/-- C28: for a non-empty `data` the CSV text is the rows joined by a newline;
there are `1 + data.length` rows; the first is the keys of `data[0]` joined by
commas; the others are, in order, the fields of each element taken at the keys
of `data[0]`. So a row is written from its values at those keys alone, and a
key the row lacks gives the empty field. For `null`, `undefined` or empty
`data` the function alerts, builds nothing and downloads nothing. -/
theorem csv_structure (first : Row) (rest : List Row) (row1 row2 : Row)
    (header : String) (filename : Option String) (downloadSupported : Bool) :
    (exportToCSV (some (first :: rest)) filename downloadSupported).csvContent
      = some (String.intercalate "\n" (csvRows first (first :: rest))) ∧
    (csvRows first (first :: rest)).length = 1 + (first :: rest).length ∧
    (csvRows first (first :: rest)).head?
      = some (String.intercalate "," (first.map Prod.fst)) ∧
    (csvRows first (first :: rest)).tail
      = (first :: rest).map (fun row =>
          String.intercalate ","
            ((first.map Prod.fst).map (fun h => csvField (rowGet row h)))) ∧
    ((∀ h ∈ first.map Prod.fst, rowGet row1 h = rowGet row2 h) →
      (csvRows first [row1]).tail = (csvRows first [row2]).tail) ∧
    ((∀ p ∈ row1, p.1 ≠ header) → csvField (rowGet row1 header) = "") ∧
    exportToCSV none filename downloadSupported
      = { alert := some "No data to export", csvContent := none, download := none } ∧
    exportToCSV (some []) filename downloadSupported
      = { alert := some "No data to export", csvContent := none, download := none } := by
  refine ⟨rfl, ?_, rfl, rfl, ?_, ?_, rfl, rfl⟩
  · simp [csvRows]
    omega
  · intro h
    simp only [csvRows, List.map_cons, List.map_nil, List.tail_cons, List.cons.injEq,
      and_true]
    congr 1
    apply List.map_congr_left
    intro hd hhd
    rw [h hd hhd]
  · intro h
    rw [rowGet_absent row1 header h]
    decide

/-- C28 (witness): two rows, the second without `b` and with an extra `c`. -/
theorem csv_structure_witness :
    (exportToCSV
        (some [[("a", CellValue.number ⟨1, by decide⟩), ("b", CellValue.string "x")],
               [("a", CellValue.number ⟨2, by decide⟩), ("c", CellValue.string "y")]])
        none true).csvContent = some "a,b\n1,x\n2," ∧
    csvField (rowGet [("a", CellValue.number ⟨2, by decide⟩),
      ("c", CellValue.string "y")] "b") = "" :=
  ⟨by decide,
   (csv_structure [("a", CellValue.number ⟨1, by decide⟩), ("b", CellValue.string "x")]
      [[("a", CellValue.number ⟨2, by decide⟩), ("c", CellValue.string "y")]]
      [("a", CellValue.number ⟨2, by decide⟩), ("c", CellValue.string "y")] [] "b" none
      true).2.2.2.2.2.1
      (by decide)⟩

/-- C29: `disconnect()` leaves the `listeners` map exactly as it was. After
`onScoreUpdate(cb); disconnect()` the handle is null and the map still holds
`cb` under `score-updated`; a following `removeAllListeners()` returns that
state unchanged, the entry included. -/
theorem disconnect_keeps_listeners (s : SocketService) (cb : Callback) :
    s.disconnect.listeners = s.listeners ∧
    ((s.onScoreUpdate cb).disconnect).socket = none ∧
    mapGet ((s.onScoreUpdate cb).disconnect).listeners Event.scoreUpdated = some cb ∧
    ((s.onScoreUpdate cb).disconnect).removeAllListeners = (s.onScoreUpdate cb).disconnect ∧
    mapGet (((s.onScoreUpdate cb).disconnect).removeAllListeners).listeners
      Event.scoreUpdated = some cb := by
  have h1 : ∀ t : SocketService, t.disconnect.listeners = t.listeners := by
    intro t
    cases ht : t.socket <;> simp [SocketService.disconnect, ht]
  have h2 : ∀ t : SocketService, t.disconnect.socket = none := by
    intro t
    cases ht : t.socket <;> simp [SocketService.disconnect, ht]
  have h3 : mapGet (s.onScoreUpdate cb).listeners Event.scoreUpdated = some cb :=
    (subscribe_listeners_get s cb).1
  have h4 : ((s.onScoreUpdate cb).disconnect).removeAllListeners
      = (s.onScoreUpdate cb).disconnect := by
    simp [SocketService.removeAllListeners, h2]
  refine ⟨h1 s, h2 _, ?_, h4, ?_⟩
  · rw [h1]; exact h3
  · rw [h4, h1]; exact h3

/-- C30: `removeAllListeners()` twice in a row gives the same state as once.
The call never touches the connection: a held handle stays held, with the same
status and the same emitted signals, and the other sockets are as before. So
the teardown calls of one unmount of Dashboard (four), Leads (two) or
Leaderboard (two) amount to a single call. -/
theorem removeAllListeners_idempotent (s : SocketService) :
    s.removeAllListeners.removeAllListeners = s.removeAllListeners ∧
    s.removeAllListeners.socket.isSome = s.socket.isSome ∧
    s.removeAllListeners.socket.map Socket.status = s.socket.map Socket.status ∧
    s.removeAllListeners.socket.map Socket.emitted = s.socket.map Socket.emitted ∧
    s.removeAllListeners.orphans = s.orphans ∧
    Dashboard.unmount s = s.removeAllListeners ∧
    Leads.unmount s = s.removeAllListeners ∧
    Leaderboard.unmount s = s.removeAllListeners := by
  have hi : ∀ t : SocketService,
      t.removeAllListeners.removeAllListeners = t.removeAllListeners := by
    intro t
    cases ht : t.socket <;> simp [SocketService.removeAllListeners, ht]
  refine ⟨hi s, ?_, ?_, ?_, ?_, ?_, ?_, ?_⟩
  · cases hs : s.socket <;> simp [SocketService.removeAllListeners, hs]
  · cases hs : s.socket <;> simp [SocketService.removeAllListeners, hs, foldl_off_eq]
  · cases hs : s.socket <;> simp [SocketService.removeAllListeners, hs, foldl_off_eq]
  · cases hs : s.socket <;> simp [SocketService.removeAllListeners, hs]
  · simp only [Dashboard.unmount, useSocket.cleanup, useScoreUpdates.cleanup,
      useLeaderboardUpdates.cleanup, hi]
  · simp only [Leads.unmount, useSocket.cleanup, useScoreUpdates.cleanup, hi]
  · simp only [Leaderboard.unmount, useSocket.cleanup, useLeaderboardUpdates.cleanup, hi]

end TargetGrid
